import Mathlib

set_option linter.unusedVariables false

/-!
# Verification of the PLA_GRU_Weapons_Systems_CAD specification

A shallow embedding, in Lean 4, of the parts of the repository's Python
code that the specification's claims are about, together with theorems
settling each claim.

Conventions of the embedding:

* Python floats are modelled as rationals (`ℚ`) where the code only does
  field arithmetic on literal constants, and as reals (`ℝ`) where the code
  calls `math.sqrt` / `np.exp`.
* Python dictionaries with a fixed key set are modelled as Lean structures
  whose field names follow the dictionary keys; dictionaries used as
  finite maps are modelled as insertion-ordered association lists.
* A Python `set` is modelled by the list of elements in insertion order;
  the conversion `list(s)` is modelled by an explicit enumeration
  parameter `ord : List String → List String` required to produce a
  permutation of the distinct elements (`List.dedup`), because CPython
  enumerates a set of strings in a hash-dependent order that is not a
  function of the set's contents (hash randomisation across interpreter
  runs).
* Code that can raise is modelled in `Except`; calls into the external
  CAD kernel (geometry construction, STEP/STL export) are modelled as
  oracle functions supplied through an environment record, themselves
  returning `Except`.
* `datetime.now()` is modelled as an explicit `now : String` argument
  feeding exactly the timestamp fields.
-/

/-! ## Shared helpers modelling Python primitives -/

namespace Py

/-- The single-quote character, as used by `repr` of a string. -/
def sq : Char := Char.ofNat 39

/-- The opening-brace character of a dictionary `repr`. -/
def braceL : Char := Char.ofNat 123

/-- The closing-brace character of a dictionary `repr`. -/
def braceR : Char := Char.ofNat 125

/-- Python `needle in hay` on strings: substring containment. -/
def containsStr (needle hay : String) : Bool :=
  decide (needle.toList <:+: hay.toList)

/-- Python `needle in hay` where `hay` is already a character list. -/
def containsChars (needle : String) (hay : List Char) : Bool :=
  decide (needle.toList <:+: hay)

/-- Python `str.lower`, at the character-list level (the embedded data is
ASCII). -/
def lowerChars (l : List Char) : List Char := l.map Char.toLower

/-- Recursion core of `split`, structural in a fuel argument (set to the
input length by `split`, so the `0` guard is never the acting branch) to
keep kernel reduction available. -/
def splitGo (sep : List Char) : ℕ → List Char → List (List Char)
  | _, [] => [[]]
  | 0, l => [l]
  | fuel + 1, c :: rest =>
      if sep ≠ [] ∧ sep <+: (c :: rest) then
        [] :: splitGo sep fuel ((c :: rest).drop sep.length)
      else
        match splitGo sep fuel rest with
        | [] => [[c]]
        | p :: ps => (c :: p) :: ps

/-- Python `s.split(sep)` for a non-empty separator: greedy left-to-right
scan. -/
def split (sep l : List Char) : List (List Char) := splitGo sep l.length l

/-- Python `int(s)` on the digit strings occurring in the embedded data
(`'4'`, `'12'`, …). -/
def intOfDigits (l : List Char) : ℕ :=
  l.foldl (fun acc c => acc * 10 + (c.toNat - 48)) 0

/-- `repr` of a Python list of strings:
`['a', 'b']` — as a character list. -/
def reprStrList (l : List String) : List Char :=
  '[' :: (List.intercalate [',', ' ']
    (l.map (fun s => sq :: (s.toList ++ [sq])))) ++ [']']

/-- `repr` of a Python dictionary from strings to strings, in insertion
order — as a character list. -/
def reprStrDict (entries : List (String × String)) : List Char :=
  braceL :: (List.intercalate [',', ' ']
    (entries.map (fun e =>
      (sq :: (e.1.toList ++ [sq])) ++ [':', ' '] ++
        (sq :: (e.2.toList ++ [sq]))))) ++ [braceR]

/-- Python `round(q)` on an exact rational: round half to even. -/
def pyRound (q : ℚ) : ℤ :=
  let f := ⌊q⌋
  let frac := q - f
  if frac < 1/2 then f
  else if 1/2 < frac then f + 1
  else if f % 2 = 0 then f else f + 1

/-- Python `round(q, ndigits)` on an exact rational. -/
def pyRoundTo (ndigits : ℕ) (q : ℚ) : ℚ :=
  (pyRound (q * 10 ^ ndigits) : ℚ) / 10 ^ ndigits

/-- Python exceptions, for the `Except` layer of functions that can raise
(`valueError` for explicit `raise ValueError(...)` statements, `exception`
for anything an external CAD-kernel call can raise). -/
inductive PyErr where
  | valueError (msg : String)
  | exception (msg : String)
  deriving DecidableEq, Repr

/-- Python dict assignment `d[k] = v` on an insertion-ordered association
list: overwrite in place when the key exists, append otherwise. -/
def dictSet {α : Type} : List (String × α) → String → α →
    List (String × α)
  | [], k, v => [(k, v)]
  | (k0, v0) :: rest, k, v =>
      if k0 = k then (k0, v) :: rest
      else (k0, v0) :: dictSet rest k v

/-- Upsert into an insertion-ordered association list, adding `v` to the
entry at `k` when present and appending `(k, v)` otherwise — the effect of
`d[k] = d.get(k, 0) + v`, and likewise of
`if k not in d: d[k] = 0` followed by `d[k] += v`, on a Python dict. -/
def dictAdd {α : Type} [Add α] : List (String × α) → String → α →
    List (String × α)
  | [], k, v => [(k, v)]
  | (k0, v0) :: rest, k, v =>
      if k0 = k then (k0, v0 + v) :: rest
      else (k0, v0) :: dictAdd rest k v

end Py

/-! ## optimize_missile.py — the four "optimizer" classes

Each `optimize(self, cad_model, config)` method consists of a single
`return` of a literal dictionary.  The embedding is polymorphic in the
types of both arguments, exactly because the body never inspects them. -/

namespace OptimizeMissile

/-- Result dictionary of `StructuralOptimizer.optimize`. -/
structure StructuralResult where
  stress_reduction : ℚ
  safety_factor_improvement : ℚ
  weight_reduction : ℚ
  improvement : ℚ
  deriving DecidableEq, Repr

/-- Result dictionary of `AerodynamicOptimizer.optimize`. -/
structure AerodynamicResult where
  drag_reduction : ℚ
  lift_drag_improvement : ℚ
  stability_improvement : ℚ
  improvement : ℚ
  deriving DecidableEq, Repr

/-- Result dictionary of `ThermalOptimizer.optimize`. -/
structure ThermalResult where
  max_temp_reduction : ℚ
  heat_flux_improvement : ℚ
  cooling_efficiency : ℚ
  improvement : ℚ
  deriving DecidableEq, Repr

/-- Result dictionary of `MassOptimizer.optimize`. -/
structure MassResult where
  total_mass_reduction : ℚ
  cg_optimization : ℚ
  inertia_optimization : ℚ
  improvement : ℚ
  deriving DecidableEq, Repr

/-- `StructuralOptimizer.optimize(self, cad_model, config)`: the body is a
single `return` of the literal dictionary below. -/
def structuralOptimize {α β : Type} (cad_model : α) (config : β) :
    StructuralResult :=
  { stress_reduction := 35
    safety_factor_improvement := 9/5
    weight_reduction := 22
    improvement := 1/4 }

/-- `AerodynamicOptimizer.optimize(self, cad_model, config)`. -/
def aerodynamicOptimize {α β : Type} (cad_model : α) (config : β) :
    AerodynamicResult :=
  { drag_reduction := 40
    lift_drag_improvement := 3/2
    stability_improvement := 3/10
    improvement := 3/10 }

/-- `ThermalOptimizer.optimize(self, cad_model, config)`. -/
def thermalOptimize {α β : Type} (cad_model : α) (config : β) :
    ThermalResult :=
  { max_temp_reduction := 300
    heat_flux_improvement := 5/2
    cooling_efficiency := 17/20
    improvement := 1/5 }

/-- `MassOptimizer.optimize(self, cad_model, config)`. -/
def massOptimize {α β : Type} (cad_model : α) (config : β) : MassResult :=
  { total_mass_reduction := 25
    cg_optimization := 1/50
    inertia_optimization := 3/20
    improvement := 1/4 }

/-- The baseline/optimized value pairs computed inside the body of
`StructuralOptimizer.optimize`: the body is the single statement
`return {'stress_reduction': 35, ...}` — it performs no arithmetic and
binds no intermediate value, so the list of (baseline, optimized) pairs it
computes from `(cad_model, config)` is empty. -/
def structuralOptimizeComputedPairs {α β : Type} (cad_model : α)
    (config : β) : List (ℚ × ℚ) :=
  []

end OptimizeMissile

/-! ## DF-17 length constants across modules (claim C7) -/

namespace CompletePLA

/-- `_generate_df17_cad` in `complete_pla_integration_system.py` opens with
`length = 10.7  # meters`. -/
def df17CadLengthM : ℚ := 107/10

end CompletePLA

namespace DF17DataLink

/-- The `DF17_SPECS` class attribute of `DF17DataLinkIntegrated` in
`cad_models/df17/data_link_integrated.py`. -/
structure DF17Specs where
  length_total : ℚ
  diameter : ℚ
  hgv_length : ℚ
  range : ℚ
  speed : String
  warhead : String
  data_links : List String
  deriving DecidableEq, Repr

/-- `DF17DataLinkIntegrated.DF17_SPECS`. -/
def DF17_SPECS : DF17Specs :=
  { length_total := 107/10
    diameter := 22/25
    hgv_length := 26/5
    range := 1800
    speed := "Mach 10+"
    warhead := "500 kg conventional or nuclear"
    data_links := ["PLA_SatCom_L", "PLA_TDL_16", "DF_Hypersonic_SatCom"] }

end DF17DataLink

namespace MasterControl

/-- The DF-17 length stated by the document string returned by
`generate_missile_specifications` in `master_control_system.py`, whose
general-characteristics section reads `- **Length**: 11.0 meters`. -/
def generateMissileSpecificationsDF17LengthM : ℚ := 11

end MasterControl

/-! ## integrated_pla_system.py — IntegratedPLASystem.simulate_battle -/

namespace IntegratedPLA

/-- One entry of the `JOINT_EXERCISES` class attribute. -/
structure JointExercise where
  name : String
  location : String
  pla : List String
  russian : List String
  data_links : List String
  interoperability : ℕ
  deriving DecidableEq, Repr

/-- `IntegratedPLASystem.JOINT_EXERCISES`. -/
def JOINT_EXERCISES : List JointExercise :=
  [{ name := "Ocean-2024"
     location := "Sea of Okhotsk"
     pla := ["Type 055", "J-16", "YJ-21"]
     russian := ["Su-35", "S-400"]
     data_links := ["PLA_TDL_16", "R-438"]
     interoperability := 3 },
   { name := "Northern Interaction 2025"
     location := "Gulf of Finland"
     pla := ["J-20", "DF-17"]
     russian := ["Su-57", "S-500"]
     data_links := ["Collaborative_Combat", "BARS"]
     interoperability := 4 }]

/-- One value of the local `scenarios` dictionary in `simulate_battle`. -/
structure Scenario where
  pla_forces : List String
  adversary_forces : List String
  distance_km : ℚ
  terrain : String
  deriving DecidableEq, Repr

/-- The local `scenarios` dictionary of `simulate_battle`. -/
def scenarios : List (String × Scenario) :=
  [("south_china_sea",
    { pla_forces := ["DF-17 x4", "J-20 x6", "Type 055 x2", "J-16 x8"]
      adversary_forces := ["F-35 x8", "DDG-51 x2", "F-15J x4"]
      distance_km := 200
      terrain := "Open ocean with islands" }),
   ("taiwan_strait",
    { pla_forces := ["DF-26 x6", "J-20 x8", "Type 052D x4"]
      adversary_forces := ["F-16V x12", "PATRIOT x3", "F-35 x4"]
      distance_km := 150
      terrain := "Narrow strait" })]

/-- The dictionary `simulate_battle` returns on a known scenario. -/
structure BattleResult where
  scenario : String
  forces : Scenario
  pla_advantages : List String
  victory_probability : ℚ
  key_factors : List String
  recommendations : List String
  deriving DecidableEq, Repr

/-- The two shapes of dictionary `simulate_battle` can return: the
`{'error': ...}` dictionary for an unknown scenario, or the full battle
result. -/
inductive SimBattleReturn where
  | errorDict (error : String)
  | result (r : BattleResult)
  deriving DecidableEq, Repr

/-- `{:.0f}` formatting of the exact rational the code computes. -/
def fmt0f (q : ℚ) : String := toString (Py.pyRound q)

/-- `IntegratedPLASystem.simulate_battle(self, scenario)`.  No statement
in the body can raise, and the unknown-scenario branch returns the
`{'error': ...}` dictionary; the `Except` layer records explicitly that
every path returns normally. -/
def simulate_battle (scenario : String) : Except Py.PyErr SimBattleReturn :=
  match scenarios.lookup scenario with
  | none => .ok (.errorDict ("Unknown scenario: " ++ scenario))
  | some scen =>
    let forcesRepr := Py.reprStrList scen.pla_forces
    let advantages :=
      (if Py.containsChars "DF-17" forcesRepr
       then ["Hypersonic speed (Mach 10+)"] else []) ++
      (if Py.containsChars "DF-26" forcesRepr
       then ["Carrier killer capability (4000km)"] else []) ++
      (if Py.containsChars "J-20" forcesRepr
       then ["Stealth superiority"] else []) ++
      (if Py.containsChars "Type 055" forcesRepr
       then ["Advanced sensors/weapons"] else [])
    let base_probability : ℚ := 0.6
    let base_probability :=
      if Py.containsChars "DF-26" forcesRepr
      then base_probability + 0.15 else base_probability
    let base_probability :=
      if Py.containsChars "J-20" forcesRepr
      then base_probability + 0.1 else base_probability
    let base_probability :=
      if scen.distance_km < 300
      then base_probability + 0.1 else base_probability
    let russian_boost : ℚ := if JOINT_EXERCISES ≠ [] then 0.05 else 0
    let victory_probability := min 0.95 (base_probability + russian_boost)
    .ok (.result
      { scenario := scenario
        forces := scen
        pla_advantages := advantages
        victory_probability := Py.pyRoundTo 2 victory_probability
        key_factors :=
          ["DF-17/26 hypersonic advantage",
           "J-20 stealth and sensors",
           (if 0 < russian_boost then
              "Russian integration: " ++ fmt0f (russian_boost * 100) ++
                "% boost"
            else "No Russian integration"),
           "Home territory advantage"]
        recommendations :=
          ["Use DF-26 against carriers first",
           "Employ J-20 for air superiority",
           "Maintain data link coverage",
           "Coordinate with S-400 if available"] })

/-- The victory probability as the specification describes it: a rounded,
capped sum of fixed additive bonuses over string-membership tests on the
scenario's force-list string, the distance threshold, and the joint
exercises list. -/
def claimVictoryProbability (scen : Scenario) : ℚ :=
  Py.pyRoundTo 2 (min 0.95
    (0.6 +
      (if Py.containsChars "DF-26" (Py.reprStrList scen.pla_forces)
       then 0.15 else 0) +
      (if Py.containsChars "J-20" (Py.reprStrList scen.pla_forces)
       then 0.1 else 0) +
      (if scen.distance_km < 300 then 0.1 else 0) +
      (if JOINT_EXERCISES ≠ [] then 0.05 else 0)))

/-- The `victory_probability` field of a `simulate_battle` return value,
when it returned a full battle result. -/
def vpOf : Except Py.PyErr SimBattleReturn → Option ℚ
  | .ok (.result r) => some r.victory_probability
  | _ => none

end IntegratedPLA


/-! ## scripts/df17_nose_cone_optimization.py — DF17NoseConeOptimizer

The drag/mass formulas call `np.exp`, so this part of the embedding lives
in `ℝ`.  Instance attributes set in `__init__` are embedded as constants. -/

namespace NoseCone

/-- `self.base_diameter = 880  # mm`. -/
def base_diameter : ℝ := 880

/-- `self.nose_length = 2500  # mm`. -/
def nose_length : ℝ := 2500

/-- `self.material['density'] = 4.43  # g/cm³`. -/
def material_density : ℝ := 4.43

/-- `self.flight_conditions['max_mach'] = 10`. -/
def max_mach : ℝ := 10

/-- `self.flight_conditions['max_dynamic_pressure'] = 50000  # Pa`. -/
def max_dynamic_pressure : ℝ := 50000

/-- The parameter dictionary handed to `calculate_drag` / `calculate_mass`:
keys `radius`, `length`, `shape_factor`, `tps_thickness`. -/
structure NoseParams where
  radius : ℝ
  length : ℝ
  shape_factor : ℝ
  tps_thickness : ℝ

/-- `DF17NoseConeOptimizer.calculate_drag(self, parameters)`. -/
noncomputable def calculate_drag (parameters : NoseParams) : ℝ :=
  let radius := parameters.radius
  let length := parameters.length
  let shape_factor := parameters.shape_factor
  let S_ref := Real.pi * radius ^ 2
  let base_cd := 0.05 * Real.exp (-0.5 * shape_factor)
  let l_d_ratio := length / (2 * radius)
  let cd_length_factor := 1.0 / (1.0 + 0.1 * l_d_ratio)
  let mach := max_mach
  let cd_mach_factor := 1.0 + 0.1 * (mach - 5) ^ 2
  let drag_coefficient := base_cd * cd_length_factor * cd_mach_factor
  let dynamic_pressure := max_dynamic_pressure
  drag_coefficient * dynamic_pressure * S_ref

/-- `DF17NoseConeOptimizer.calculate_mass(self, parameters)`. -/
noncomputable def calculate_mass (parameters : NoseParams) : ℝ :=
  let radius := parameters.radius
  let length := parameters.length
  let tps_thickness := parameters.tps_thickness
  let structure_volume := (1/3 : ℝ) * Real.pi * radius ^ 2 * length
  let outer_radius := radius + tps_thickness
  let tps_volume :=
    (1/3 : ℝ) * Real.pi * (outer_radius ^ 2 - radius ^ 2) * length
  let density_structural := material_density * 1e-6
  let density_tps := (2.2 : ℝ) * 1e-6
  let mass := structure_volume * density_structural +
    tps_volume * density_tps
  mass * 1000

/-- The baseline parameter dictionary hardcoded (identically) inside
`calculate_drag_reduction` and `calculate_mass_reduction`:
`{'radius': self.base_diameter / 2, 'length': self.nose_length,
'shape_factor': 1.0, 'tps_thickness': 30}`. -/
noncomputable def baseline_params : NoseParams :=
  { radius := base_diameter / 2
    length := nose_length
    shape_factor := 1.0
    tps_thickness := 30 }

/-- `DF17NoseConeOptimizer.calculate_drag_reduction(self, parameters)`. -/
noncomputable def calculate_drag_reduction (parameters : NoseParams) : ℝ :=
  let baseline_drag := calculate_drag baseline_params
  let optimized_drag := calculate_drag parameters
  ((baseline_drag - optimized_drag) / baseline_drag) * 100

/-- `DF17NoseConeOptimizer.calculate_mass_reduction(self, parameters)`. -/
noncomputable def calculate_mass_reduction (parameters : NoseParams) : ℝ :=
  let baseline_mass := calculate_mass baseline_params
  let optimized_mass := calculate_mass parameters
  ((baseline_mass - optimized_mass) / baseline_mass) * 100

end NoseCone

/-! ## simple_cad_generator.py — STEPWriter

Every `add_*` method appends an entity string interpolating the current
`entity_counter`, increments the counter, and returns `f"#{counter - 1}"`.
The embedding keeps each appended entity as the pair of the interpolated
id and a constructor carrying the non-id arguments of the format string,
so nothing about the ids is abstracted away while float formatting is. -/

namespace SimpleCad

/-- The payload of one appended STEP entity line (everything in the
formatted string other than the leading `#id`). -/
inductive EntityBody where
  | cartesianPoint (x y z : ℝ)
  | direction (x y z : ℝ)
  | axisPlacement (location_ref axis_ref ref_direction_ref : String)
  | cylindricalSurface (placement_ref : String) (radius : ℝ)
  | rectangularTrimmedSurface (surface_ref : String) (height : ℝ)
  | advancedFace (bounds_refs : List String) (surface_ref : String)
      (same_sense : Bool)
  | closedShell (face_refs : List String)
  | manifoldSolidBrep (shell_ref : String)

/-- The `STEPWriter` state: `self.entities` (each entity kept as its
interpolated id paired with its body) and `self.entity_counter`. -/
structure STEPWriter where
  entities : List (ℕ × EntityBody)
  entity_counter : ℕ

/-- `STEPWriter.__init__`: `self.entities = []`, `self.entity_counter = 1`. -/
def initWriter : STEPWriter := { entities := [], entity_counter := 1 }

/-- `f"#{n}"`. -/
def refString (n : ℕ) : String := "#" ++ toString n

/-- The shared body of every `add_*` method: append one entity carrying
the current counter, increment the counter, return `f"#{counter - 1}"`
(the id of the entity just appended). -/
def appendEntity (w : STEPWriter) (body : EntityBody) :
    STEPWriter × String :=
  ({ entities := w.entities ++ [(w.entity_counter, body)]
     entity_counter := w.entity_counter + 1 },
   refString w.entity_counter)

/-- `STEPWriter.add_cartesian_point(self, x, y, z)`. -/
def addCartesianPoint (w : STEPWriter) (x y z : ℝ) : STEPWriter × String :=
  appendEntity w (.cartesianPoint x y z)

/-- `STEPWriter.add_direction(self, x, y, z)`: divide the components by
their Euclidean magnitude only when `magnitude > 0`, then append. -/
noncomputable def addDirection (w : STEPWriter) (x y z : ℝ) :
    STEPWriter × String :=
  let magnitude := Real.sqrt (x * x + y * y + z * z)
  if 0 < magnitude then
    appendEntity w (.direction (x / magnitude) (y / magnitude)
      (z / magnitude))
  else
    appendEntity w (.direction x y z)

/-- The Euclidean magnitude of a DIRECTION entity's components (0 for any
other entity kind). -/
noncomputable def dirMagnitude : EntityBody → ℝ
  | .direction x y z => Real.sqrt (x * x + y * y + z * z)
  | _ => 0

/-- `STEPWriter.add_axis_placement(self, location_ref, axis_ref,
ref_direction_ref)`. -/
def addAxisPlacement (w : STEPWriter)
    (location_ref axis_ref ref_direction_ref : String) :
    STEPWriter × String :=
  appendEntity w (.axisPlacement location_ref axis_ref ref_direction_ref)

/-- `STEPWriter.add_cylinder(self, radius, height, placement_ref)`: appends
the cylindrical surface, then the rectangular trim referencing it, and
returns the reference of the trim (the second appended entity). -/
def addCylinder (w : STEPWriter) (radius height : ℝ)
    (placement_ref : String) : STEPWriter × String :=
  let step1 := appendEntity w (.cylindricalSurface placement_ref radius)
  let surface_ref := step1.2
  appendEntity step1.1 (.rectangularTrimmedSurface surface_ref height)

/-- `STEPWriter.add_advanced_face(self, surface_ref, bounds_refs,
same_sense)`. -/
def addAdvancedFace (w : STEPWriter) (surface_ref : String)
    (bounds_refs : List String) (same_sense : Bool) : STEPWriter × String :=
  appendEntity w (.advancedFace bounds_refs surface_ref same_sense)

/-- `STEPWriter.add_closed_shell(self, face_refs)`. -/
def addClosedShell (w : STEPWriter) (face_refs : List String) :
    STEPWriter × String :=
  appendEntity w (.closedShell face_refs)

/-- `STEPWriter.add_manifold_solid_brep(self, shell_ref)`. -/
def addManifoldSolidBrep (w : STEPWriter) (shell_ref : String) :
    STEPWriter × String :=
  appendEntity w (.manifoldSolidBrep shell_ref)

/-- One `add_*` call, as data, for reasoning about arbitrary call
sequences against a writer. -/
inductive Op where
  | cartesianPoint (x y z : ℝ)
  | direction (x y z : ℝ)
  | axisPlacement (location_ref axis_ref ref_direction_ref : String)
  | cylinder (radius height : ℝ) (placement_ref : String)
  | advancedFace (surface_ref : String) (bounds_refs : List String)
      (same_sense : Bool)
  | closedShell (face_refs : List String)
  | manifoldSolidBrep (shell_ref : String)

/-- Dispatch one `add_*` call to the corresponding method. -/
noncomputable def applyOp (w : STEPWriter) : Op → STEPWriter × String
  | .cartesianPoint x y z => addCartesianPoint w x y z
  | .direction x y z => addDirection w x y z
  | .axisPlacement l a r => addAxisPlacement w l a r
  | .cylinder radius height placement_ref =>
      addCylinder w radius height placement_ref
  | .advancedFace surface_ref bounds_refs same_sense =>
      addAdvancedFace w surface_ref bounds_refs same_sense
  | .closedShell face_refs => addClosedShell w face_refs
  | .manifoldSolidBrep shell_ref => addManifoldSolidBrep w shell_ref

/-- Run a sequence of `add_*` calls, keeping only the writer state. -/
noncomputable def runOps (w : STEPWriter) (ops : List Op) : STEPWriter :=
  ops.foldl (fun w o => (applyOp w o).1) w

/-- The entity ids appearing, in order, in the DATA section of a file
produced by `STEPWriter.write_step_file` (which writes `self.entities`
in list order between a fixed header and footer). -/
def writtenEntityIds (w : STEPWriter) : List ℕ := w.entities.map Prod.fst

/-- The `STEPWriter` counter/ids invariant. -/
def WriterInv (w : STEPWriter) : Prop :=
  w.entity_counter = w.entities.length + 1 ∧
    w.entities.map Prod.fst = List.range' 1 w.entities.length

/-! ### simple_cad_generator.py — ManufacturingPackage -/

/-- The dictionary returned by
`ManufacturingPackage.get_manufacturing_notes(name, material)`: six fixed
keys, plus conditional keys for warhead and guidance components. -/
structure ManufacturingNotes where
  machining : String
  tolerances : String
  surface_finish : String
  heat_treatment : String
  ndi : String
  coating : String
  special_handling : Option String
  testing : Option String
  cleanroom : Option String
  esd : Option String
  deriving DecidableEq, Repr

/-- `ManufacturingPackage.get_manufacturing_notes(self, name, material)`. -/
def getManufacturingNotes (name material : String) : ManufacturingNotes :=
  { machining := "5-axis CNC for precision surfaces"
    tolerances := "±0.01mm for mating surfaces, ±0.1mm general"
    surface_finish := "Ra 1.6μm for aerodynamic surfaces"
    heat_treatment :=
      if Py.containsStr "Steel" material || Py.containsStr "Titanium" material
      then "Required" else "Not required"
    ndi := "Ultrasonic inspection for critical components"
    coating := "Thermal barrier coating for high-temp areas"
    special_handling :=
      if Py.containsStr "Warhead" name
      then some "Explosive containment - Class 1.1" else none
    testing :=
      if Py.containsStr "Warhead" name
      then some "X-ray inspection, hydrostatic test" else none
    cleanroom :=
      if Py.containsStr "Guidance" name
      then some "Class 100 required" else none
    esd :=
      if Py.containsStr "Guidance" name
      then some "ESD protected handling mandatory" else none }

/-- One entry of `ManufacturingPackage.components`, as built by
`add_component(name, step_file, material, mass_kg, quantity)`. -/
structure MPComponent where
  name : String
  step_file : String
  material : String
  mass_kg : ℚ
  quantity : ℕ
  manufacturing_notes : ManufacturingNotes
  deriving DecidableEq, Repr

/-- `ManufacturingPackage.add_component`, producing the dictionary it
appends to `self.components`. -/
def mkMPComponent (name step_file material : String) (mass_kg : ℚ)
    (quantity : ℕ) : MPComponent :=
  { name := name
    step_file := step_file
    material := material
    mass_kg := mass_kg
    quantity := quantity
    manufacturing_notes := getManufacturingNotes name material }

/-- One step of the fixed list returned by
`ManufacturingPackage.generate_assembly_sequence` (step 7 carries a
`pressure` key instead of `torque`). -/
structure AssemblyStep where
  step : ℕ
  action : String
  torque : Option String
  pressure : Option String
  tool : String
  deriving DecidableEq, Repr

/-- `ManufacturingPackage.generate_assembly_sequence(self)`. -/
def generateAssemblySequence : List AssemblyStep :=
  [{ step := 1, action := "Inspect all components per BOM",
     torque := some "N/A", pressure := none, tool := "Calipers, CMM" },
   { step := 2, action := "Mount propulsion section to assembly fixture",
     torque := some "120 Nm", pressure := none, tool := "Torque wrench" },
   { step := 3, action := "Install guidance section with alignment pins",
     torque := some "80 Nm", pressure := none, tool := "Torque wrench" },
   { step := 4,
     action := "Install warhead section with explosive safety interlocks",
     torque := some "150 Nm", pressure := none, tool := "Torque wrench" },
   { step := 5, action := "Mount fin assemblies with aerodynamic alignment",
     torque := some "60 Nm", pressure := none, tool := "Torque wrench" },
   { step := 6, action := "Install avionics and wiring harness",
     torque := some "20 Nm", pressure := none,
     tool := "Torque screwdriver" },
   { step := 7, action := "Pressure test propulsion system",
     torque := none, pressure := some "5000 psi",
     tool := "Pressure test rig" },
   { step := 8, action := "Final inspection and acceptance testing",
     torque := some "N/A", pressure := none, tool := "Test equipment" }]

/-- The fixed `quality_requirements` dictionary of `generate_bom`. -/
structure QualityRequirements where
  dimensional_tolerance : String
  material_certification : String
  weld_qualification : String
  ndt_requirements : String
  deriving DecidableEq, Repr

/-- The JSON object written by `ManufacturingPackage.generate_bom`;
`generation_date` is `datetime.now().isoformat()`, supplied here as the
explicit `now` argument. -/
structure MPBom where
  missile_system : String
  generation_date : String
  classification : String
  total_mass_kg : ℚ
  component_count : ℕ
  components : List MPComponent
  assembly_sequence : List AssemblyStep
  quality_requirements : QualityRequirements
  deriving DecidableEq, Repr

/-- `ManufacturingPackage.generate_bom(self, output_dir)`, as the JSON
object it serialises (the file path and print are side effects outside
the data). -/
def generateBom (now missile_type : String)
    (components : List MPComponent) : MPBom :=
  let total_mass :=
    (components.map (fun c => c.mass_kg * (c.quantity : ℚ))).sum
  { missile_system := missile_type
    generation_date := now
    classification := "TOP SECRET - PLA/GRU"
    total_mass_kg := Py.pyRoundTo 2 total_mass
    component_count := components.length
    components := components
    assembly_sequence := generateAssemblySequence
    quality_requirements :=
      { dimensional_tolerance := "ISO 2768-m"
        material_certification := "MIL-STD-453"
        weld_qualification := "AWS D17.1"
        ndt_requirements := "Ultrasonic, Radiographic, Dye Penetrant" } }

/-- `generate_bom`'s output with its sole timestamp field cleared, for
stating determinism of the non-timestamp part. -/
def stripBomDate (b : MPBom) : MPBom := { b with generation_date := "" }

end SimpleCad

/-! ## real_cad_core.py — MissileComponent.calculate_mass and
MissileAssembly.export_bom

`calculate_mass` multiplies a density looked up from a hardcoded table
(default 4500) by the CAD-kernel volume of the component's geometry; the
kernel volume is the oracle input `volume_m3` of the embedded component. -/

namespace RealCadCore

/-- The state of one `MissileComponent` that `export_bom` reads: its
`name`, `material` and parameter-independent kernel volume (the result of
`self.geometry.val().Volume() / 1e9`, supplied as an oracle). -/
structure MissileComponent where
  name : String
  material : String
  volume_m3 : ℚ
  deriving DecidableEq, Repr

/-- The hardcoded density table of `MissileComponent.calculate_mass`. -/
def densities : List (String × ℚ) :=
  [("TC4_Titanium_Alloy", 4420),
   ("TC11_Titanium_Alloy", 4500),
   ("7A04_Aluminum_Alloy", 2780),
   ("30CrMnSiA_Steel", 7850),
   ("T800_Carbon_Fiber", 1550),
   ("T1000_Carbon_Fiber", 1500),
   ("GH4169_Superalloy", 8240),
   ("W-Ni-Fe_Tungsten_Alloy", 17600),
   ("Al-Li_Alloy_2195", 2550),
   ("SiC_Silicon_Carbide", 3100)]

/-- `MissileComponent.calculate_mass(self)`:
`densities.get(self.material, 4500) * volume`. -/
def calculateMass (c : MissileComponent) : ℚ :=
  ((densities.lookup c.material).getD 4500) * c.volume_m3

/-- One entry of the `components` list written by `export_bom`
(`mass_kg` is `round(mass, 3)`; the unrounded mass feeds the totals). -/
structure BomComponentEntry where
  name : String
  material : String
  mass_kg : ℚ
  position_m : ℚ × ℚ × ℚ
  deriving DecidableEq, Repr

/-- The JSON object written by `MissileAssembly.export_bom`. -/
structure AssemblyBom where
  missile_type : String
  components : List BomComponentEntry
  total_mass : ℚ
  materials : List (String × ℚ)
  deriving DecidableEq, Repr

/-- The body of `export_bom`'s `for component, position in
self.components` loop, acting on the accumulating `bom` dictionary. -/
def exportBomStep (bom : AssemblyBom)
    (cp : MissileComponent × (ℚ × ℚ × ℚ)) : AssemblyBom :=
  let mass := calculateMass cp.1
  { bom with
    components := bom.components ++
      [{ name := cp.1.name
         material := cp.1.material
         mass_kg := Py.pyRoundTo 3 mass
         position_m := cp.2 }]
    total_mass := bom.total_mass + mass
    materials := Py.dictAdd bom.materials cp.1.material mass }

/-- `MissileAssembly.export_bom(self, output_path)`, as the JSON object it
serialises: fold the loop body over `self.components` starting from the
literal initial dictionary. -/
def exportBom (missile_type : String)
    (components : List (MissileComponent × (ℚ × ℚ × ℚ))) : AssemblyBom :=
  components.foldl exportBomStep
    { missile_type := missile_type
      components := []
      total_mass := 0
      materials := [] }

end RealCadCore

/-! ## complete_pla_integration_system.py — CompletePLAIntegrationSystem

The system dictionaries built by `_initialize_pla_systems`,
`_initialize_russian_systems` and `_initialize_adversary_systems`, the
battle-scenario simulation pipeline, and `generate_cad_for_system`.  The
`system_type` enum member is kept as its value string. -/

namespace CompletePLA

/-- The `SystemSpecification` dataclass. -/
structure SystemSpecification where
  name : String
  system_type : String
  category : String
  range_km : ℚ
  speed_mach : ℚ
  payload_kg : ℚ
  guidance : String
  production_rate : String
  deployed_count : String
  data_links : List String
  materials : List String
  joint_exercises : List String
  special_features : List String
  deriving DecidableEq, Repr

/-- `CompletePLAIntegrationSystem._initialize_pla_systems`. -/
def pla_systems : List (String × SystemSpecification) :=
  [("DF-17",
    { name := "DF-17"
      system_type := "DF-17 Hypersonic Glide Vehicle"
      category := "hypersonic_ballistic"
      range_km := 1800
      speed_mach := 10
      payload_kg := 500
      guidance := "HGV + BeiDou + terminal radar/IR"
      production_rate := "12/month"
      deployed_count := "100+"
      data_links := ["PLA_SatCom_L", "PLA_TDL_16", "DF_Hypersonic_SatCom"]
      materials := ["TC4_Titanium", "SiC_TPS", "7A04_Aluminum"]
      joint_exercises := ["Ocean-2024", "Northern Interaction 2025"]
      special_features := ["Hypersonic Glide Vehicle", "Satellite targeting",
        "Moving naval targets"] }),
   ("DF-26",
    { name := "DF-26"
      system_type := "DF-26 Intermediate Range Ballistic Missile"
      category := "dual_role_ballistic"
      range_km := 4000
      speed_mach := 12
      payload_kg := 1200
      guidance := "Multi-mode + moving target tracking"
      production_rate := "10/month"
      deployed_count := "400+"
      data_links := ["PLA_SatCom_L", "PLA_TDL_16", "Multi-link"]
      materials := ["TC4_Titanium", "W-Ni-Fe_penetrator", "T800_CarbonFiber"]
      joint_exercises := ["Joint Sea 2024"]
      special_features := ["Anti-ship & land attack", "Nuclear/conventional",
        "Carrier killer"] }),
   ("J-20",
    { name := "J-20"
      system_type := "J-20 Stealth Fighter"
      category := "stealth_fighter"
      range_km := 2000
      speed_mach := 2.0
      payload_kg := 11000
      guidance := "Sensor fusion + AI targeting"
      production_rate := "30+/year"
      deployed_count := "300+"
      data_links := ["Collaborative_Combat", "PLA_TDL_16", "PLA_SatCom_L"]
      materials := ["T1000_CarbonFiber", "TC4_Titanium", "RAM_coatings"]
      joint_exercises := ["Northern Interaction 2025"]
      special_features := ["Low Observable", "Sensor fusion",
        "Long-range engagement"] }),
   ("Type 055",
    { name := "Type 055"
      system_type := "Type 055 Destroyer"
      category := "destroyer"
      range_km := 8000
      speed_mach := 0
      payload_kg := 0
      guidance := "Integrated combat system"
      production_rate := "2/year"
      deployed_count := "8+"
      data_links := ["Integrated_Network", "PLA_TDL_16", "SatCom"]
      materials := ["High-strength steel", "Composite superstructure",
        "RAM_panels"]
      joint_exercises := ["Ocean-2024", "Joint Sea 2024"]
      special_features := ["112-cell VLS", "Type 346B AESA",
        "YJ-21 hypersonic", "HQ-9B SAM"] }),
   ("YJ-21",
    { name := "YJ-21"
      system_type := "YJ-21 Hypersonic Anti-Ship"
      category := "hypersonic_anti_ship"
      range_km := 1500
      speed_mach := 6
      payload_kg := 300
      guidance := "INS + BeiDou + active radar"
      production_rate := "20/month"
      deployed_count := "100+"
      data_links := ["PLA_TDL_16", "Two-way_update"]
      materials := ["TC4_Titanium", "SiC_nose", "Composite_body"]
      joint_exercises := ["Joint Sea 2024"]
      special_features := ["Ship/air launched", "Hypersonic speed",
        "Carrier killer"] }),
   ("PL-15",
    { name := "PL-15"
      system_type := "PL-15 Long Range AAM"
      category := "air_to_air"
      range_km := 200
      speed_mach := 4
      payload_kg := 22
      guidance := "AESA radar + imaging IR"
      production_rate := "50/month"
      deployed_count := "1000+"
      data_links := ["PL-15_DataLink", "PLA_TDL_16"]
      materials := ["T800_CarbonFiber", "W-Ni-Fe_warhead", "Al-Li_alloy"]
      joint_exercises := ["Ocean-2024"]
      special_features := ["Two-way data link", "AESA seeker",
        "No-escape zone 100km"] }),
   ("HQ-19",
    { name := "HQ-19"
      system_type := "HQ-19 Anti-Ballistic Missile"
      category := "anti_ballistic"
      range_km := 500
      speed_mach := 15
      payload_kg := 200
      guidance := "Kinetic kill vehicle"
      production_rate := "5/month"
      deployed_count := "30+"
      data_links := ["PLA_TDL_16", "Early_Warning_Satellite"]
      materials := ["High-strength_composite", "Tungsten_rod",
        "Advanced_seeker"]
      joint_exercises := ["Aerospace Security 2025"]
      special_features := ["Exo-atmospheric intercept",
        "Multiple warhead capability", "Satellite cueing"] })]

/-- `CompletePLAIntegrationSystem._initialize_russian_systems`. -/
def russian_systems : List (String × SystemSpecification) :=
  [("S-400",
    { name := "S-400"
      system_type := "S-400 Triumf SAM"
      category := "air_defense"
      range_km := 400
      speed_mach := 8
      payload_kg := 150
      guidance := "Command + active radar"
      production_rate := "4/year"
      deployed_count := "50+ (in Russia)"
      data_links := ["R-438", "TKS-2", "S-400_FireControl"]
      materials := ["Russian_steel", "Composite_radomes", "Electronics"]
      joint_exercises := ["Ocean-2024", "Aerospace Security 2025"]
      special_features := ["Multi-target engagement",
        "Ballistic missile defense", "PLA interoperability"] }),
   ("Su-35",
    { name := "Su-35"
      system_type := "Su-35S Flanker-E"
      category := "air_superiority"
      range_km := 1600
      speed_mach := 2.25
      payload_kg := 8000
      guidance := "Irbis-E radar + OLS"
      production_rate := "12/year"
      deployed_count := "100+"
      data_links := ["R-438", "BARS", "Link-16_Compatible"]
      materials := ["Aluminum-lithium", "Titanium", "Composite"]
      joint_exercises := ["Ocean-2024", "Joint Sea 2024"]
      special_features := ["Thrust vectoring", "Long-range radar",
        "PLA joint operations"] }),
   ("Zircon",
    { name := "Zircon"
      system_type := "3M22 Zircon Hypersonic"
      category := "hypersonic_anti_ship"
      range_km := 1000
      speed_mach := 8
      payload_kg := 300
      guidance := "INS + GLONASS + active radar"
      production_rate := "10/month"
      deployed_count := "50+"
      data_links := ["Russian_SatCom", "Two-way_update"]
      materials := ["Heat-resistant_alloy", "Scramjet_components",
        "Composite"]
      joint_exercises := ["Joint Sea 2024"]
      special_features := ["Scramjet propulsion", "Sea-skimming flight",
        "Comparable to DF-17"] })]

/-- `CompletePLAIntegrationSystem._initialize_adversary_systems`. -/
def adversary_systems : List (String × SystemSpecification) :=
  [("F-35",
    { name := "F-35"
      system_type := "F-35 Lightning II"
      category := "stealth_multirole"
      range_km := 1200
      speed_mach := 1.6
      payload_kg := 8200
      guidance := "AN/APG-81 AESA + EOTS + DAS"
      production_rate := "150/year"
      deployed_count := "450+ in Pacific"
      data_links := ["Link-16", "MADL", "SATCOM"]
      materials := ["RAM_composites", "Aluminum", "Titanium"]
      joint_exercises := []
      special_features := ["Sensor fusion", "Low Observable",
        "Network-centric"] }),
   ("DDG-51",
    { name := "DDG-51"
      system_type := "Arleigh Burke Destroyer"
      category := "destroyer"
      range_km := 7400
      speed_mach := 0
      payload_kg := 0
      guidance := "AEGIS combat system"
      production_rate := "3/year"
      deployed_count := "70+"
      data_links := ["Link-16", "CEC", "SATCOM"]
      materials := ["High-strength_steel", "Aluminum_superstructure"]
      joint_exercises := []
      special_features := ["96-cell VLS", "AN/SPY-1 radar", "SM-6 missiles",
        "AEGIS BMD"] }),
   ("F-16V",
    { name := "F-16V"
      system_type := "F-16V Viper"
      category := "multirole"
      range_km := 1000
      speed_mach := 2.0
      payload_kg := 7700
      guidance := "AN/APG-83 AESA"
      production_rate := "Upgrade program"
      deployed_count := "140+ in Taiwan"
      data_links := ["Link-16", "Have Quick II"]
      materials := ["Aluminum", "Composite"]
      joint_exercises := []
      special_features := ["AESA radar", "JHMCS II", "Network enabled"] })]

/-! ### Battle-scenario simulation -/

/-- One value of the local `scenarios` dictionary in
`simulate_battle_scenario`. -/
structure BattleScenario where
  location : ℚ × ℚ
  pla_forces : List String
  adversary_forces : List String
  distance_km : ℚ
  terrain : String
  deriving DecidableEq, Repr

/-- The local `scenarios` dictionary of `simulate_battle_scenario`. -/
def battleScenarios : List (String × BattleScenario) :=
  [("south_china_sea",
    { location := (12.0, 114.0)
      pla_forces := ["DF-17 x4", "J-20 x6", "Type 055 x2", "J-16 x8"]
      adversary_forces := ["F-35 x8", "DDG-51 x2", "F-15J x4"]
      distance_km := 200
      terrain := "Open ocean with islands" }),
   ("taiwan_strait",
    { location := (24.5, 120.0)
      pla_forces := ["DF-26 x6", "J-20 x8", "Type 052D x4", "H-6K x6"]
      adversary_forces := ["F-16V x12", "PATRIOT x3", "F-35 x4"]
      distance_km := 150
      terrain := "Narrow strait, urban areas" }),
   ("indo_pacific",
    { location := (15.0, 135.0)
      pla_forces := ["DF-26 x8", "J-20 x12", "Type 055 x3", "Type 093B x2"]
      adversary_forces := ["F-22 x4", "B-21 x2", "CVN_78 x1", "DDG_51 x3"]
      distance_km := 800
      terrain := "Open ocean, deep water" })]

/-- `parts = force.split(' x'); sys_name = parts[0]`. -/
def forceName (force : String) : String :=
  String.mk ((Py.split " x".toList force.toList).headD [])

/-- `count = int(parts[1]) if len(parts) > 1 else 1`. -/
def forceCount (force : String) : ℕ :=
  let parts := Py.split " x".toList force.toList
  if parts.length > 1 then Py.intOfDigits (parts.getD 1 []) else 1

/-- The mutable accumulator of the `_analyze_pla_forces` loop, with the
two Python sets (`data_link_coverage`, and `key_capabilities` before its
final `list(set(...))`) kept as their insertion sequences. -/
structure PlaAnalysisAcc where
  system_types : List (String × ℕ)
  total_range_km : ℚ
  total_payload_kg : ℚ
  data_link_coverage_ins : List String
  key_capabilities_ins : List String

/-- The loop body of `_analyze_pla_forces`. -/
def plaForcesStep (acc : PlaAnalysisAcc) (force : String) :
    PlaAnalysisAcc :=
  let sys_name := forceName force
  let count := forceCount force
  match pla_systems.lookup sys_name with
  | none => acc
  | some sys =>
      { system_types := Py.dictAdd acc.system_types sys_name count
        total_range_km := acc.total_range_km + sys.range_km * count
        total_payload_kg := acc.total_payload_kg + sys.payload_kg * count
        data_link_coverage_ins :=
          acc.data_link_coverage_ins ++ sys.data_links
        key_capabilities_ins :=
          acc.key_capabilities_ins ++ sys.special_features }

/-- The analysis dictionary returned by `_analyze_pla_forces`, after the
two `list(set(...))` conversions. -/
structure PlaAnalysis where
  total_systems : ℕ
  system_types : List (String × ℕ)
  total_range_km : ℚ
  total_payload_kg : ℚ
  data_link_coverage : List String
  key_capabilities : List String
  deriving DecidableEq, Repr

/-- `CompletePLAIntegrationSystem._analyze_pla_forces(self, force_list)`,
with the set-enumeration order `ord` supplied as a parameter. -/
def analyzePlaForces (ord : List String → List String)
    (force_list : List String) : PlaAnalysis :=
  let acc := force_list.foldl plaForcesStep
    { system_types := []
      total_range_km := 0
      total_payload_kg := 0
      data_link_coverage_ins := []
      key_capabilities_ins := [] }
  { total_systems := force_list.length
    system_types := acc.system_types
    total_range_km := acc.total_range_km
    total_payload_kg := acc.total_payload_kg
    data_link_coverage := ord acc.data_link_coverage_ins
    key_capabilities := ord acc.key_capabilities_ins }

/-- The mutable accumulator of the `_analyze_adversary_forces` loop. -/
structure AdvAnalysisAcc where
  system_types : List (String × ℕ)
  key_vulnerabilities_ins : List String
  data_links_ins : List String

/-- The loop body of `_analyze_adversary_forces` (the vulnerability
appends sit inside the known-system branch). -/
def advForcesStep (acc : AdvAnalysisAcc) (force : String) :
    AdvAnalysisAcc :=
  let sys_name := forceName force
  let count := forceCount force
  match adversary_systems.lookup sys_name with
  | none => acc
  | some sys =>
      { system_types := Py.dictAdd acc.system_types sys_name count
        data_links_ins := acc.data_links_ins ++ sys.data_links
        key_vulnerabilities_ins := acc.key_vulnerabilities_ins ++
          (if Py.containsStr "F-35" sys_name then
            ["Limited numbers in theater", "Maintenance intensive"]
          else if Py.containsStr "F-16" sys_name then
            ["Aging airframe", "Limited stealth"]
          else if Py.containsStr "DDG" sys_name then
            ["Vulnerable to hypersonic missiles", "Limited magazine depth"]
          else []) }

/-- The analysis dictionary returned by `_analyze_adversary_forces`. -/
structure AdvAnalysis where
  total_systems : ℕ
  system_types : List (String × ℕ)
  key_vulnerabilities : List String
  data_links : List String
  estimated_response_time : String
  deriving DecidableEq, Repr

/-- `CompletePLAIntegrationSystem._analyze_adversary_forces(self,
force_list)`, with the set-enumeration order `ord` as a parameter. -/
def analyzeAdversaryForces (ord : List String → List String)
    (force_list : List String) : AdvAnalysis :=
  let acc := force_list.foldl advForcesStep
    { system_types := []
      key_vulnerabilities_ins := []
      data_links_ins := [] }
  { total_systems := force_list.length
    system_types := acc.system_types
    key_vulnerabilities := ord acc.key_vulnerabilities_ins
    data_links := ord acc.data_links_ins
    estimated_response_time := "Varies" }

/-- `any('hypersonic' in cap.lower() for cap in key_capabilities)`. -/
def hasHypersonicCap (caps : List String) : Bool :=
  caps.any (fun cap => Py.containsChars "hypersonic"
    (Py.lowerChars cap.toList))

/-- The `quantitative_comparison` dictionary of `_calculate_advantages`. -/
structure QuantComparison where
  range_advantage : String
  payload_advantage : String
  stealth_advantage : String
  hypersonic_advantage : String
  carrier_killer_present : String
  deriving DecidableEq, Repr

/-- The dictionary returned by `_calculate_advantages`. -/
structure Advantages where
  pla_advantages : List String
  adversary_advantages : List String
  neutral_factors : List String
  quantitative_comparison : QuantComparison
  deriving DecidableEq, Repr

/-- `CompletePLAIntegrationSystem._calculate_advantages(self,
pla_analysis, adversary_analysis, scenario)`. -/
def calculateAdvantages (pla : PlaAnalysis) (adv : AdvAnalysis)
    (scenario : BattleScenario) : Advantages :=
  { pla_advantages :=
      (if hasHypersonicCap pla.key_capabilities then
        ["Hypersonic weapons - speed advantage"] else []) ++
      (if (pla.system_types.lookup "DF-26").isSome then
        ["DF-26 carrier killer capability"] else []) ++
      (if (pla.system_types.lookup "J-20").isSome then
        ["J-20 stealth superiority"] else []) ++
      (if (pla.system_types.lookup "Type 055").isSome then
        ["Type 055 destroyer - advanced sensors/weapons"] else []) ++
      (if scenario.distance_km < 500 then
        ["Home territory advantage", "Shorter supply lines"] else [])
    adversary_advantages :=
      (if (adv.system_types.lookup "F-35").isSome then
        ["F-35 sensor fusion"] else []) ++
      (if (adv.system_types.lookup "CVN_78").isSome then
        ["Carrier air wing numbers"] else []) ++
      (if (adv.system_types.lookup "B-21").isSome then
        ["B-21 penetrating bomber"] else [])
    neutral_factors := []
    quantitative_comparison :=
      { range_advantage :=
          if pla.total_range_km > 2000 then "PLA" else "Adversary"
        payload_advantage :=
          if pla.total_payload_kg > 10000 then "PLA" else "Adversary"
        stealth_advantage :=
          if (pla.system_types.lookup "J-20").isSome then "PLA"
          else "Adversary"
        hypersonic_advantage :=
          if hasHypersonicCap pla.key_capabilities then "PLA" else "None"
        carrier_killer_present :=
          if (pla.system_types.lookup "DF-26").isSome then "PLA"
          else "No" } }

/-- The `repr` of the `quantitative_comparison` dictionary, as interpolated
by `str(advantages['quantitative_comparison'])`. -/
def quantRepr (q : QuantComparison) : List Char :=
  Py.reprStrDict
    [("range_advantage", q.range_advantage),
     ("payload_advantage", q.payload_advantage),
     ("stealth_advantage", q.stealth_advantage),
     ("hypersonic_advantage", q.hypersonic_advantage),
     ("carrier_killer_present", q.carrier_killer_present)]

/-- The `estimated_casualties['pla']` dictionary of `_predict_outcome`. -/
structure CasualtiesPla where
  aircraft : String
  ships : String
  missiles : String
  deriving DecidableEq, Repr

/-- The `estimated_casualties['adversary']` dictionary. -/
structure CasualtiesAdv where
  aircraft : String
  ships : String
  carriers : String
  deriving DecidableEq, Repr

/-- The `estimated_casualties` dictionary. -/
structure Casualties where
  pla : CasualtiesPla
  adversary : CasualtiesAdv
  deriving DecidableEq, Repr

/-- The dictionary returned by `_predict_outcome`. -/
structure Outcome where
  pla_victory_probability : ℚ
  expected_duration_hours : String
  estimated_casualties : Casualties
  key_deciding_factors : List String
  escalation_risk : String
  deriving DecidableEq, Repr

/-- `CompletePLAIntegrationSystem._predict_outcome(self, pla_analysis,
adversary_analysis, advantages, scenario)`. -/
def predictOutcome (pla : PlaAnalysis) (adv : AdvAnalysis)
    (advantages : Advantages) (scenario : BattleScenario) : Outcome :=
  let q := advantages.quantitative_comparison
  let pla_score : ℕ :=
    advantages.pla_advantages.length * 10 + pla.total_systems * 2 +
      (if Py.containsChars "hypersonic" (Py.lowerChars (quantRepr q))
       then 20 else 0) +
      (if q.carrier_killer_present = "PLA" then 15 else 0)
  let adversary_score : ℕ :=
    advantages.adversary_advantages.length * 10 + adv.total_systems * 2
  let pla_score := pla_score +
    (if Py.containsChars "strait" (Py.lowerChars scenario.terrain.toList)
     then 15 else 0)
  let adversary_score := adversary_score +
    (if Py.containsChars "open ocean"
        (Py.lowerChars scenario.terrain.toList)
     then 10 else 0)
  let total_score := pla_score + adversary_score
  let pla_victory_probability : ℚ :=
    if total_score > 0 then (pla_score : ℚ) / (total_score : ℚ) else 0.5
  { pla_victory_probability := Py.pyRoundTo 2 pla_victory_probability
    expected_duration_hours := "24-72"
    estimated_casualties :=
      { pla := { aircraft := "5-10", ships := "0-1", missiles := "15-25%" }
        adversary :=
          { aircraft := "15-25", ships := "1-2", carriers := "0-1" } }
    key_deciding_factors :=
      ["DF-26 carrier killer effectiveness",
       "J-20 air superiority",
       "Russian S-400 integration (if available)",
       "Data link network resilience"]
    escalation_risk :=
      if (pla.system_types.lookup "DF-26").isSome then "High"
      else "Medium" }

/-- `CompletePLAIntegrationSystem._generate_recommendations(self,
pla_analysis, advantages, scenario)`. -/
def generateRecommendations (pla : PlaAnalysis) (advantages : Advantages)
    (scenario : BattleScenario) : List String :=
  (if (pla.system_types.lookup "DF-26").isSome ∧
      scenario.adversary_forces.any (fun adv => Py.containsStr "CVN" adv)
   then ["Employ DF-26 in first-strike against carrier groups"] else []) ++
  (if (pla.system_types.lookup "J-20").isSome then
    ["Use J-20 for air superiority and F-35/F-22 neutralization"]
   else []) ++
  (if hasHypersonicCap pla.key_capabilities then
    ["Utilize hypersonic weapons for time-sensitive targets"] else []) ++
  ["Maintain continuous data link coverage via BeiDou satellites",
   "Coordinate with Russian S-400/S-500 if joint exercise active",
   "Keep Type 055 destroyers at stand-off range for sensor coverage",
   "Use H-6K bombers for stand-off missile launches"]

/-- The `forces` sub-dictionary of the simulation result. -/
structure ForcesOut where
  pla : List String
  adversary : List String
  deriving DecidableEq, Repr

/-- The `analysis` sub-dictionary of the simulation result. -/
structure ScenarioAnalysis where
  pla_capabilities : PlaAnalysis
  adversary_capabilities : AdvAnalysis
  advantages : Advantages
  outcome_prediction : Outcome
  recommendations : List String
  deriving DecidableEq, Repr

/-- The dictionary returned (and stored in `simulation_results`) by
`simulate_battle_scenario`. -/
structure ScenarioResult where
  scenario : String
  location : ℚ × ℚ
  forces : ForcesOut
  analysis : ScenarioAnalysis
  data_links_used : List String
  russian_integration : Bool
  timestamp : String
  deriving DecidableEq, Repr

/-- `CompletePLAIntegrationSystem.simulate_battle_scenario(self,
scenario_name)`: raises `ValueError` on an unknown name, otherwise runs
the analysis pipeline.  `ord` is the set-enumeration order, `now` the
`datetime.now().isoformat()` timestamp; the write to
`self.simulation_results` stores the same dictionary that is returned. -/
def simulate_battle_scenario (ord : List String → List String)
    (now : String) (scenario_name : String) :
    Except Py.PyErr ScenarioResult :=
  match battleScenarios.lookup scenario_name with
  | none => .error (.valueError ("Unknown scenario: " ++ scenario_name))
  | some scen =>
      let pla_analysis := analyzePlaForces ord scen.pla_forces
      let adversary_analysis :=
        analyzeAdversaryForces ord scen.adversary_forces
      let advantages :=
        calculateAdvantages pla_analysis adversary_analysis scen
      let outcome :=
        predictOutcome pla_analysis adversary_analysis advantages scen
      let recommendations :=
        generateRecommendations pla_analysis advantages scen
      .ok
        { scenario := scenario_name
          location := scen.location
          forces :=
            { pla := scen.pla_forces, adversary := scen.adversary_forces }
          analysis :=
            { pla_capabilities := pla_analysis
              adversary_capabilities := adversary_analysis
              advantages := advantages
              outcome_prediction := outcome
              recommendations := recommendations }
          data_links_used :=
            ["PLA_TDL_16", "Collaborative_Combat", "PLA_SatCom_L"]
          russian_integration := decide (0 < russian_systems.length)
          timestamp := now }

/-- A set-enumeration order is valid when it lists the distinct elements
of the insertion sequence, each once, in some order. -/
def ValidOrd (ord : List String → List String) : Prop :=
  ∀ l, List.Perm (ord l) l.dedup

/-- The simulation result with its timestamp field cleared. -/
def stripResultTs (r : ScenarioResult) : ScenarioResult :=
  { r with timestamp := "" }

/-- Agreement of two `_analyze_pla_forces` results up to the enumeration
order of their two set-derived list fields. -/
def PlaAnalysisEquiv (p1 p2 : PlaAnalysis) : Prop :=
  p1.total_systems = p2.total_systems ∧
  p1.system_types = p2.system_types ∧
  p1.total_range_km = p2.total_range_km ∧
  p1.total_payload_kg = p2.total_payload_kg ∧
  List.Perm p1.data_link_coverage p2.data_link_coverage ∧
  List.Perm p1.key_capabilities p2.key_capabilities

/-- Agreement of two `_analyze_adversary_forces` results up to the
enumeration order of their two set-derived list fields. -/
def AdvAnalysisEquiv (a1 a2 : AdvAnalysis) : Prop :=
  a1.total_systems = a2.total_systems ∧
  a1.system_types = a2.system_types ∧
  List.Perm a1.key_vulnerabilities a2.key_vulnerabilities ∧
  List.Perm a1.data_links a2.data_links ∧
  a1.estimated_response_time = a2.estimated_response_time

/-- Agreement of two simulation results on every non-timestamp field,
with the four set-derived list fields compared as multisets. -/
def ResultEquiv (r1 r2 : ScenarioResult) : Prop :=
  r1.scenario = r2.scenario ∧
  r1.location = r2.location ∧
  r1.forces = r2.forces ∧
  PlaAnalysisEquiv r1.analysis.pla_capabilities
    r2.analysis.pla_capabilities ∧
  AdvAnalysisEquiv r1.analysis.adversary_capabilities
    r2.analysis.adversary_capabilities ∧
  r1.analysis.advantages = r2.analysis.advantages ∧
  r1.analysis.outcome_prediction = r2.analysis.outcome_prediction ∧
  r1.analysis.recommendations = r2.analysis.recommendations ∧
  r1.data_links_used = r2.data_links_used ∧
  r1.russian_integration = r2.russian_integration

/-- `ResultEquiv` lifted to the `Except` layer. -/
def SimEquiv : Except Py.PyErr ScenarioResult →
    Except Py.PyErr ScenarioResult → Prop
  | .error e1, .error e2 => e1 = e2
  | .ok r1, .ok r2 => ResultEquiv r1 r2
  | _, _ => False

/-! ### generate_cad_for_system -/

/-- The calls `generate_cad_for_system` makes into the CAD kernel, each of
which can raise: the per-family geometry builders (`_generate_df17_cad`,
`_generate_j20_cad`, `_generate_type055_cad`, `_generate_s400_cad`,
`_generate_f35_cad`, `_generate_basic_geometry`) and the two
`cq.exporters.export` calls. -/
structure CadEnv (G : Type) where
  df17 : SystemSpecification → Except Py.PyErr G
  j20 : SystemSpecification → Except Py.PyErr G
  type055 : SystemSpecification → Except Py.PyErr G
  s400 : SystemSpecification → Except Py.PyErr G
  f35 : SystemSpecification → Except Py.PyErr G
  basic : SystemSpecification → Except Py.PyErr G
  exportSTEP : G → String → Except Py.PyErr Unit
  exportSTL : G → String → Except Py.PyErr Unit

/-- One entry of `self.cad_models` as written on success. -/
structure CadModelEntry (G : Type) where
  geometry : G
  step_path : String
  stl_path : String
  system : SystemSpecification

/-- `system_name.replace(' ', '_')` (the pattern is a single space). -/
def pathName (system_name : String) : String :=
  system_name.map (fun c => if c = ' ' then '_' else c)

/-- The `if system_name in self.pla_systems: ... elif ... elif ... else:
log and return None` cascade at the top of `generate_cad_for_system`. -/
def systemLookup (system_name : String) : Option SystemSpecification :=
  if (pla_systems.lookup system_name).isSome then
    pla_systems.lookup system_name
  else if (russian_systems.lookup system_name).isSome then
    russian_systems.lookup system_name
  else if (adversary_systems.lookup system_name).isSome then
    adversary_systems.lookup system_name
  else none

/-- The `if 'DF-17' in system_name: ... elif ... else: basic geometry`
dispatch of `generate_cad_for_system` to the geometry builders. -/
def dispatchBuilder {G : Type} (env : CadEnv G) (system_name : String)
    (system : SystemSpecification) : Except Py.PyErr G :=
  if Py.containsStr "DF-17" system_name then env.df17 system
  else if Py.containsStr "J-20" system_name then env.j20 system
  else if Py.containsStr "Type 055" system_name then env.type055 system
  else if Py.containsStr "S-400" system_name then env.s400 system
  else if Py.containsStr "F-35" system_name then env.f35 system
  else env.basic system

/-- `CompletePLAIntegrationSystem.generate_cad_for_system(self,
system_name, output_dir)`: system lookup across the three dictionaries
(`None` with a logged error when absent), dispatch on substrings of the
name to a geometry builder whose exceptions propagate, then a `try` block
around the STEP and STL exports and the `cad_models` assignment in which
any exception is logged and converted to `None`. -/
def generate_cad_for_system {G : Type} (env : CadEnv G)
    (cad_models : List (String × CadModelEntry G))
    (system_name output_dir : String) :
    Except Py.PyErr (Option G × List (String × CadModelEntry G)) :=
  match systemLookup system_name with
  | none => .ok (none, cad_models)
  | some system =>
      match dispatchBuilder env system_name system with
      | .error e => .error e
      | .ok geometry =>
          let step_path := output_dir ++ "/" ++ pathName system_name ++
            ".step"
          let stl_path := output_dir ++ "/" ++ pathName system_name ++
            ".stl"
          match env.exportSTEP geometry step_path with
          | .error e => .ok (none, cad_models)
          | .ok _ =>
              match env.exportSTL geometry stl_path with
              | .error e => .ok (none, cad_models)
              | .ok _ =>
                  .ok (some geometry,
                    Py.dictSet cad_models system_name
                      { geometry := geometry
                        step_path := step_path
                        stl_path := stl_path
                        system := system })

/-- A sample CAD-kernel environment in which every builder and both
exporters succeed (geometry modelled as `ℕ`), for concrete evaluation. -/
def sampleEnvOk : CadEnv ℕ :=
  { df17 := fun _ => .ok 1
    j20 := fun _ => .ok 2
    type055 := fun _ => .ok 3
    s400 := fun _ => .ok 4
    f35 := fun _ => .ok 5
    basic := fun _ => .ok 6
    exportSTEP := fun _ _ => .ok ()
    exportSTL := fun _ _ => .ok () }

/-- `sampleEnvOk` with a failing STEP exporter. -/
def sampleEnvStepFail : CadEnv ℕ :=
  { sampleEnvOk with
    exportSTEP := fun _ _ => .error (.exception "disk full") }

/-- `sampleEnvOk` with a DF-17 geometry builder that raises. -/
def sampleEnvBuildFail : CadEnv ℕ :=
  { sampleEnvOk with
    df17 := fun _ => .error (.exception "kernel crash") }

end CompletePLA

/-! # Theorems -/

namespace Py

theorem dictAdd_sumValues {α : Type} [AddCommMonoid α]
    (d : List (String × α)) (k : String) (v : α) :
    ((dictAdd d k v).map Prod.snd).sum = (d.map Prod.snd).sum + v := by
  induction d with
  | nil => simp [dictAdd]
  | cons e rest ih =>
      by_cases h : e.1 = k
      · simp [dictAdd, h, add_assoc, add_comm]
      · simp [dictAdd, h, ih, add_assoc]

end Py

namespace SimpleCad

theorem writerInv_init : WriterInv initWriter := by
  constructor <;> simp [initWriter]

theorem writerInv_appendEntity {w : STEPWriter} (h : WriterInv w)
    (body : EntityBody) : WriterInv (appendEntity w body).1 := by
  obtain ⟨hc, hids⟩ := h
  constructor
  · simp [appendEntity, hc]
  · simp [appendEntity, hids, hc, List.range'_concat, Nat.add_comm]

theorem writerInv_applyOp {w : STEPWriter} (h : WriterInv w) (o : Op) :
    WriterInv (applyOp w o).1 := by
  cases o with
  | cylinder radius height placement_ref =>
      exact writerInv_appendEntity (writerInv_appendEntity h _) _
  | direction x y z =>
      simp only [applyOp, addDirection]
      split <;> exact writerInv_appendEntity h _
  | _ => exact writerInv_appendEntity h _

theorem writerInv_runOps {w : STEPWriter} (h : WriterInv w)
    (ops : List Op) : WriterInv (runOps w ops) := by
  induction ops generalizing w with
  | nil => exact h
  | cons o ops ih => exact ih (writerInv_applyOp h o)

/-- After any `add_*` call the returned string is `#n` for the id `n` of
the entity appended last (unconditionally, from the shape of the calls). -/
theorem applyOp_ref (w : STEPWriter) (o : Op) :
    (applyOp w o).2 = refString ((applyOp w o).1.entity_counter - 1) ∧
      ((applyOp w o).1.entities.getLast?).map Prod.fst =
        some ((applyOp w o).1.entity_counter - 1) := by
  cases o with
  | cylinder radius height placement_ref =>
      constructor <;> simp [applyOp, addCylinder, appendEntity]
  | direction x y z =>
      simp only [applyOp, addDirection]
      split <;> constructor <;> simp [appendEntity]
  | _ => constructor <;>
      simp [applyOp, addCartesianPoint, addAxisPlacement, addAdvancedFace,
        addClosedShell, addManifoldSolidBrep, appendEntity]

end SimpleCad

namespace RealCadCore

theorem exportBom_foldl_total (components :
    List (MissileComponent × (ℚ × ℚ × ℚ))) (bom : AssemblyBom) :
    (components.foldl exportBomStep bom).total_mass =
      bom.total_mass +
        (components.map (fun cp => calculateMass cp.1)).sum := by
  induction components generalizing bom with
  | nil => simp
  | cons cp rest ih => simp [ih, exportBomStep, add_assoc]

theorem exportBom_foldl_materials (components :
    List (MissileComponent × (ℚ × ℚ × ℚ))) (bom : AssemblyBom) :
    ((components.foldl exportBomStep bom).materials.map Prod.snd).sum =
      (bom.materials.map Prod.snd).sum +
        (components.map (fun cp => calculateMass cp.1)).sum := by
  induction components generalizing bom with
  | nil => simp
  | cons cp rest ih =>
      simp [ih, exportBomStep, Py.dictAdd_sumValues, add_assoc]

end RealCadCore

namespace IntegratedPLA

theorem vp_south_china_sea :
    vpOf (simulate_battle "south_china_sea") =
      some (Py.pyRoundTo 2 (min 0.95 (0.6 + 0.1 + 0.1 + 0.05))) := rfl

theorem vp_taiwan_strait :
    vpOf (simulate_battle "taiwan_strait") =
      some (Py.pyRoundTo 2 (min 0.95 (0.6 + 0.15 + 0.1 + 0.1 + 0.05))) :=
  rfl

theorem pyRoundTo_scs :
    Py.pyRoundTo 2 (min 0.95 (0.6 + 0.1 + 0.1 + 0.05) : ℚ) = 0.85 := by
  have hmin : (min 0.95 (0.6 + 0.1 + 0.1 + 0.05) : ℚ) = 0.85 := by
    rw [min_def]
    norm_num
  rw [hmin]
  simp only [Py.pyRoundTo, Py.pyRound]
  norm_num

theorem pyRoundTo_ts :
    Py.pyRoundTo 2 (min 0.95 (0.6 + 0.15 + 0.1 + 0.1 + 0.05) : ℚ) =
      0.95 := by
  have hmin : (min 0.95 (0.6 + 0.15 + 0.1 + 0.1 + 0.05) : ℚ) = 0.95 := by
    rw [min_def]
    norm_num
  rw [hmin]
  simp only [Py.pyRoundTo, Py.pyRound]
  norm_num

theorem claimVP_scs :
    claimVictoryProbability
      { pla_forces := ["DF-17 x4", "J-20 x6", "Type 055 x2", "J-16 x8"]
        adversary_forces := ["F-35 x8", "DDG-51 x2", "F-15J x4"]
        distance_km := 200
        terrain := "Open ocean with islands" } = 0.85 := by
  have c1 : Py.containsChars "DF-26"
      (Py.reprStrList ["DF-17 x4", "J-20 x6", "Type 055 x2", "J-16 x8"]) =
        false := by rfl
  have c2 : Py.containsChars "J-20"
      (Py.reprStrList ["DF-17 x4", "J-20 x6", "Type 055 x2", "J-16 x8"]) =
        true := by rfl
  have hj : JOINT_EXERCISES ≠ [] := by simp [JOINT_EXERCISES]
  rw [← pyRoundTo_scs]
  simp only [claimVictoryProbability, c1, c2]
  rw [if_pos hj]
  norm_num

theorem claimVP_ts :
    claimVictoryProbability
      { pla_forces := ["DF-26 x6", "J-20 x8", "Type 052D x4"]
        adversary_forces := ["F-16V x12", "PATRIOT x3", "F-35 x4"]
        distance_km := 150
        terrain := "Narrow strait" } = 0.95 := by
  have c1 : Py.containsChars "DF-26"
      (Py.reprStrList ["DF-26 x6", "J-20 x8", "Type 052D x4"]) = true := by
    rfl
  have c2 : Py.containsChars "J-20"
      (Py.reprStrList ["DF-26 x6", "J-20 x8", "Type 052D x4"]) = true := by
    rfl
  have hj : JOINT_EXERCISES ≠ [] := by simp [JOINT_EXERCISES]
  rw [← pyRoundTo_ts]
  simp only [claimVictoryProbability, c1, c2]
  rw [if_pos hj]
  norm_num

/-- `simulate_battle` on a name outside its scenario dictionary returns the
`{'error': ...}` dictionary (it does not raise). -/
theorem simulate_battle_unknown (name : String)
    (h : name ∉ ["south_china_sea", "taiwan_strait"]) :
    simulate_battle name =
      .ok (.errorDict ("Unknown scenario: " ++ name)) := by
  have h1 : name ≠ "south_china_sea" := by
    intro e
    exact h (by simp [e])
  have h2 : name ≠ "taiwan_strait" := by
    intro e
    exact h (by simp [e])
  have b1 : (name == "south_china_sea") = false :=
    beq_eq_false_iff_ne.mpr h1
  have b2 : (name == "taiwan_strait") = false :=
    beq_eq_false_iff_ne.mpr h2
  have hl : scenarios.lookup name = none := by
    simp [scenarios, List.lookup, b1, b2]
  unfold simulate_battle
  rw [hl]

end IntegratedPLA
/-! ## Claim theorems -/

/-- C1: for every pair of inputs `(cad_model, config)` — of any types —
`StructuralOptimizer.optimize`, `AerodynamicOptimizer.optimize`,
`ThermalOptimizer.optimize` and `MassOptimizer.optimize` each return the
same fixed literal dictionary (for the structural one:
`{'stress_reduction': 35, 'safety_factor_improvement': 1.8,
'weight_reduction': 22, 'improvement': 0.25}`); the returned value does
not depend on either argument. -/
theorem claim_C1_optimizers_return_constants :
    ∀ (α β γ δ : Type) (m : α) (c : β) (m2 : γ) (c2 : δ),
      (OptimizeMissile.structuralOptimize m c =
        { stress_reduction := 35, safety_factor_improvement := 1.8,
          weight_reduction := 22, improvement := 0.25 } ∧
        OptimizeMissile.structuralOptimize m c =
          OptimizeMissile.structuralOptimize m2 c2) ∧
      (OptimizeMissile.aerodynamicOptimize m c =
        { drag_reduction := 40, lift_drag_improvement := 1.5,
          stability_improvement := 0.3, improvement := 0.30 } ∧
        OptimizeMissile.aerodynamicOptimize m c =
          OptimizeMissile.aerodynamicOptimize m2 c2) ∧
      (OptimizeMissile.thermalOptimize m c =
        { max_temp_reduction := 300, heat_flux_improvement := 2.5,
          cooling_efficiency := 0.85, improvement := 0.20 } ∧
        OptimizeMissile.thermalOptimize m c =
          OptimizeMissile.thermalOptimize m2 c2) ∧
      (OptimizeMissile.massOptimize m c =
        { total_mass_reduction := 25, cg_optimization := 0.02,
          inertia_optimization := 0.15, improvement := 0.25 } ∧
        OptimizeMissile.massOptimize m c =
          OptimizeMissile.massOptimize m2 c2) := by
  intro α β γ δ m c m2 c2
  refine ⟨⟨?_, rfl⟩, ⟨?_, rfl⟩, ⟨?_, rfl⟩, ⟨?_, rfl⟩⟩ <;>
    · simp only [OptimizeMissile.structuralOptimize,
        OptimizeMissile.aerodynamicOptimize,
        OptimizeMissile.thermalOptimize, OptimizeMissile.massOptimize,
        OptimizeMissile.StructuralResult.mk.injEq,
        OptimizeMissile.AerodynamicResult.mk.injEq,
        OptimizeMissile.ThermalResult.mk.injEq,
        OptimizeMissile.MassResult.mk.injEq]
      norm_num

/-- C2 (counterexample): the claim asks the fixed percentage
`stress_reduction = 35` of `StructuralOptimizer.optimize` to satisfy
`reduction = (baseline - optimized) / baseline * 100` for some
baseline/optimized pair the method computes — but its body is a single
literal `return` that computes no such pair, so no computed pair
witnesses the identity. -/
theorem claim_C2_counterexample :
    ¬ ∃ p ∈ OptimizeMissile.structuralOptimizeComputedPairs () (),
      (p.1 - p.2) / p.1 * 100 =
        (OptimizeMissile.structuralOptimize () ()).stress_reduction := by
  simp [OptimizeMissile.structuralOptimizeComputedPairs]

/-- C2 (amended): `DF17NoseConeOptimizer.calculate_drag_reduction` and
`calculate_mass_reduction` satisfy the identity
`reduction = (baseline - optimized) / baseline * 100` against the
hardcoded baseline (radius 440, length 2500, shape_factor 1.0,
tps_thickness 30); the percentages of the optimizer classes in
`optimize_missile.py`, by contrast, are literal constants independent of
all input, computed from no baseline/optimized pair. -/
theorem claim_C2_percentage_identities :
    (∀ p : NoseCone.NoseParams,
      NoseCone.calculate_drag_reduction p =
        (NoseCone.calculate_drag NoseCone.baseline_params -
          NoseCone.calculate_drag p) /
          NoseCone.calculate_drag NoseCone.baseline_params * 100 ∧
      NoseCone.calculate_mass_reduction p =
        (NoseCone.calculate_mass NoseCone.baseline_params -
          NoseCone.calculate_mass p) /
          NoseCone.calculate_mass NoseCone.baseline_params * 100) ∧
    (NoseCone.baseline_params.radius = 440 ∧
      NoseCone.baseline_params.length = 2500 ∧
      NoseCone.baseline_params.shape_factor = 1 ∧
      NoseCone.baseline_params.tps_thickness = 30) ∧
    (∀ (α β : Type) (m : α) (c : β),
      OptimizeMissile.structuralOptimizeComputedPairs m c = [] ∧
      (OptimizeMissile.structuralOptimize m c).stress_reduction = 35) := by
  refine ⟨fun p => ⟨rfl, rfl⟩, ⟨?_, ?_, ?_, ?_⟩,
    fun α β m c => ⟨rfl, rfl⟩⟩ <;>
    norm_num [NoseCone.baseline_params, NoseCone.base_diameter,
      NoseCone.nose_length]

/-- C7: the DF-17 length constant of `_generate_df17_cad` and the
`length_total` of `DF17DataLinkIntegrated.DF17_SPECS` both equal 10.7
metres, while `generate_missile_specifications` in
`master_control_system.py` states 11.0 metres, so a pair of modules
disagrees on the DF-17 length. -/
theorem claim_C7_df17_length_inconsistent :
    CompletePLA.df17CadLengthM = 10.7 ∧
    DF17DataLink.DF17_SPECS.length_total = 10.7 ∧
    MasterControl.generateMissileSpecificationsDF17LengthM = 11.0 ∧
    CompletePLA.df17CadLengthM ≠
      MasterControl.generateMissileSpecificationsDF17LengthM := by
  refine ⟨?_, ?_, ?_, ?_⟩ <;>
    norm_num [CompletePLA.df17CadLengthM, DF17DataLink.DF17_SPECS,
      MasterControl.generateMissileSpecificationsDF17LengthM]

/-- C8: starting from `entities = []`, `entity_counter = 1`, every
sequence of `add_*` calls leaves `entity_counter = len(entities) + 1` and
the entity ids written to a STEP file are exactly `1, 2, …,
len(entities)` in order; and each `add_*` call returns `"#n"` for the id
`n` of the entity it appended last. -/
theorem claim_C8_stepwriter_id_invariant :
    (∀ ops : List SimpleCad.Op,
      (SimpleCad.runOps SimpleCad.initWriter ops).entity_counter =
        (SimpleCad.runOps SimpleCad.initWriter ops).entities.length + 1 ∧
      SimpleCad.writtenEntityIds
          (SimpleCad.runOps SimpleCad.initWriter ops) =
        List.range' 1
          (SimpleCad.runOps SimpleCad.initWriter ops).entities.length) ∧
    (∀ (w : SimpleCad.STEPWriter) (o : SimpleCad.Op),
      (SimpleCad.applyOp w o).2 =
        SimpleCad.refString
          ((SimpleCad.applyOp w o).1.entity_counter - 1) ∧
      ((SimpleCad.applyOp w o).1.entities.getLast?).map Prod.fst =
        some ((SimpleCad.applyOp w o).1.entity_counter - 1)) :=
  ⟨fun ops => SimpleCad.writerInv_runOps SimpleCad.writerInv_init ops,
   fun w o => SimpleCad.applyOp_ref w o⟩

/-- C9: `add_direction` is total and normalising — on input `(0, 0, 0)`
the magnitude guard fails and the DIRECTION entity is appended with
components `(0, 0, 0)`, no division attempted; on any input of positive
magnitude the appended DIRECTION entity's components have Euclidean
magnitude 1. -/
theorem claim_C9_add_direction_normalises :
    (∀ w : SimpleCad.STEPWriter,
      SimpleCad.addDirection w 0 0 0 =
        SimpleCad.appendEntity w (.direction 0 0 0)) ∧
    (∀ (w : SimpleCad.STEPWriter) (x y z : ℝ),
      0 < Real.sqrt (x * x + y * y + z * z) →
      ∃ b, ((SimpleCad.addDirection w x y z).1.entities.getLast?) =
          some (w.entity_counter, b) ∧
        SimpleCad.dirMagnitude b = 1) := by
  constructor
  · intro w
    rw [SimpleCad.addDirection, if_neg]
    norm_num
  · intro w x y z hm
    set s : ℝ := x * x + y * y + z * z with hs
    set m : ℝ := Real.sqrt s with hmdef
    refine ⟨SimpleCad.EntityBody.direction (x / m) (y / m) (z / m),
      ?_, ?_⟩
    · rw [SimpleCad.addDirection, if_pos hm]
      simp [SimpleCad.appendEntity]
    · have hs0 : 0 ≤ s :=
        add_nonneg (add_nonneg (mul_self_nonneg x) (mul_self_nonneg y))
          (mul_self_nonneg z)
      have hmm : m * m = s := Real.mul_self_sqrt hs0
      have hmne : m ≠ 0 := ne_of_gt hm
      have hsum : x / m * (x / m) + y / m * (y / m) + z / m * (z / m) =
          1 := by
        have hsne : s ≠ 0 := by
          rw [← hmm]
          exact mul_ne_zero hmne hmne
        field_simp
        rw [hmm]
      simp only [SimpleCad.dirMagnitude, hsum, Real.sqrt_one]

/-- C9 witness: at the concrete input `(3, 0, 4)` the magnitude is
positive and the appended entity is normalised to magnitude 1. -/
theorem claim_C9_witness :
    0 < Real.sqrt (3 * 3 + 0 * 0 + 4 * 4 : ℝ) ∧
    ∃ b, ((SimpleCad.addDirection SimpleCad.initWriter 3 0 4).1.entities.getLast?) =
        some (SimpleCad.initWriter.entity_counter, b) ∧
      SimpleCad.dirMagnitude b = 1 := by
  have h : 0 < Real.sqrt (3 * 3 + 0 * 0 + 4 * 4 : ℝ) :=
    Real.sqrt_pos.mpr (by norm_num)
  exact ⟨h,
    claim_C9_add_direction_normalises.2 SimpleCad.initWriter 3 0 4 h⟩

/-- C10: in `MissileAssembly.export_bom` the written `total_mass` equals
the sum of `calculate_mass()` over all components, and the per-material
masses sum to that same total; in `ManufacturingPackage.generate_bom` the
written `total_mass_kg` is the rounded sum over components of
`mass_kg * quantity`. -/
theorem claim_C10_bom_mass_consistent :
    (∀ (mt : String)
      (comps : List (RealCadCore.MissileComponent × (ℚ × ℚ × ℚ))),
      (RealCadCore.exportBom mt comps).total_mass =
        (comps.map (fun cp => RealCadCore.calculateMass cp.1)).sum ∧
      ((RealCadCore.exportBom mt comps).materials.map Prod.snd).sum =
        (RealCadCore.exportBom mt comps).total_mass) ∧
    (∀ (now mt : String) (comps : List SimpleCad.MPComponent),
      (SimpleCad.generateBom now mt comps).total_mass_kg =
        Py.pyRoundTo 2
          ((comps.map (fun c => c.mass_kg * (c.quantity : ℚ))).sum)) := by
  constructor
  · intro mt comps
    have ht := RealCadCore.exportBom_foldl_total comps
      { missile_type := mt, components := [], total_mass := 0,
        materials := [] }
    have hm := RealCadCore.exportBom_foldl_materials comps
      { missile_type := mt, components := [], total_mass := 0,
        materials := [] }
    simp only [List.map_nil, List.sum_nil, zero_add] at ht hm
    exact ⟨ht, by rw [RealCadCore.exportBom, hm, ht]⟩
  · intro now mt comps
    rfl

/-- C6: for every known scenario of `integrated_pla_system.py`'s
`simulate_battle`, the returned `victory_probability` equals
`round(min(0.95, 0.6 + (0.15 if 'DF-26' in the force string) + (0.1 if
'J-20' in it) + (0.1 if distance_km < 300) + (0.05 if JOINT_EXERCISES is
non-empty)), 2)` and never exceeds 0.95. -/
theorem claim_C6_victory_probability_formula :
    ∀ p ∈ IntegratedPLA.scenarios,
      IntegratedPLA.vpOf (IntegratedPLA.simulate_battle p.1) =
        some (IntegratedPLA.claimVictoryProbability p.2) ∧
      IntegratedPLA.claimVictoryProbability p.2 ≤ 0.95 := by
  intro p hp
  rcases List.mem_cons.mp hp with h | hp2
  · subst h
    constructor
    · show IntegratedPLA.vpOf
          (IntegratedPLA.simulate_battle "south_china_sea") =
        some (IntegratedPLA.claimVictoryProbability
          { pla_forces := ["DF-17 x4", "J-20 x6", "Type 055 x2",
              "J-16 x8"]
            adversary_forces := ["F-35 x8", "DDG-51 x2", "F-15J x4"]
            distance_km := 200
            terrain := "Open ocean with islands" })
      rw [IntegratedPLA.vp_south_china_sea, IntegratedPLA.claimVP_scs,
        IntegratedPLA.pyRoundTo_scs]
    · show IntegratedPLA.claimVictoryProbability
          { pla_forces := ["DF-17 x4", "J-20 x6", "Type 055 x2",
              "J-16 x8"]
            adversary_forces := ["F-35 x8", "DDG-51 x2", "F-15J x4"]
            distance_km := 200
            terrain := "Open ocean with islands" } ≤ 0.95
      rw [IntegratedPLA.claimVP_scs]
      norm_num
  rcases List.mem_cons.mp hp2 with h | hp3
  · subst h
    constructor
    · show IntegratedPLA.vpOf
          (IntegratedPLA.simulate_battle "taiwan_strait") =
        some (IntegratedPLA.claimVictoryProbability
          { pla_forces := ["DF-26 x6", "J-20 x8", "Type 052D x4"]
            adversary_forces := ["F-16V x12", "PATRIOT x3", "F-35 x4"]
            distance_km := 150
            terrain := "Narrow strait" })
      rw [IntegratedPLA.vp_taiwan_strait, IntegratedPLA.claimVP_ts,
        IntegratedPLA.pyRoundTo_ts]
    · show IntegratedPLA.claimVictoryProbability
          { pla_forces := ["DF-26 x6", "J-20 x8", "Type 052D x4"]
            adversary_forces := ["F-16V x12", "PATRIOT x3", "F-35 x4"]
            distance_km := 150
            terrain := "Narrow strait" } ≤ 0.95
      rw [IntegratedPLA.claimVP_ts]
  exact absurd hp3 (List.not_mem_nil p)

/-- C6 witness: the south-china-sea scenario is a known scenario, its
simulated victory probability equals the specification's formula, and the
formula value is at most 0.95. -/
theorem claim_C6_witness :
    (("south_china_sea",
      ({ pla_forces := ["DF-17 x4", "J-20 x6", "Type 055 x2", "J-16 x8"]
         adversary_forces := ["F-35 x8", "DDG-51 x2", "F-15J x4"]
         distance_km := 200
         terrain := "Open ocean with islands" } :
        IntegratedPLA.Scenario)) ∈ IntegratedPLA.scenarios) ∧
    (IntegratedPLA.vpOf
        (IntegratedPLA.simulate_battle "south_china_sea") =
      some (IntegratedPLA.claimVictoryProbability
        { pla_forces := ["DF-17 x4", "J-20 x6", "Type 055 x2", "J-16 x8"]
          adversary_forces := ["F-35 x8", "DDG-51 x2", "F-15J x4"]
          distance_km := 200
          terrain := "Open ocean with islands" }) ∧
      IntegratedPLA.claimVictoryProbability
        { pla_forces := ["DF-17 x4", "J-20 x6", "Type 055 x2", "J-16 x8"]
          adversary_forces := ["F-35 x8", "DDG-51 x2", "F-15J x4"]
          distance_km := 200
          terrain := "Open ocean with islands" } ≤ 0.95) := by
  have hmem :
      (("south_china_sea",
        ({ pla_forces := ["DF-17 x4", "J-20 x6", "Type 055 x2",
             "J-16 x8"]
           adversary_forces := ["F-35 x8", "DDG-51 x2", "F-15J x4"]
           distance_km := 200
           terrain := "Open ocean with islands" } :
          IntegratedPLA.Scenario)) ∈ IntegratedPLA.scenarios) := by
    unfold IntegratedPLA.scenarios
    exact List.mem_cons_self _ _
  exact ⟨hmem, claim_C6_victory_probability_formula _ hmem⟩

namespace CompletePLA

/-- `simulate_battle_scenario`'s scenario dictionary has no entry for a
name outside its three keys. -/
theorem battleScenarios_lookup_none (name : String)
    (h : name ∉ ["south_china_sea", "taiwan_strait", "indo_pacific"]) :
    battleScenarios.lookup name = none := by
  have h1 : name ≠ "south_china_sea" := by
    intro e
    exact h (by simp [e])
  have h2 : name ≠ "taiwan_strait" := by
    intro e
    exact h (by simp [e])
  have h3 : name ≠ "indo_pacific" := by
    intro e
    exact h (by simp [e])
  have b1 : (name == "south_china_sea") = false :=
    beq_eq_false_iff_ne.mpr h1
  have b2 : (name == "taiwan_strait") = false :=
    beq_eq_false_iff_ne.mpr h2
  have b3 : (name == "indo_pacific") = false :=
    beq_eq_false_iff_ne.mpr h3
  simp [battleScenarios, List.lookup, b1, b2, b3]

end CompletePLA

/-- C4 (amended): `complete_pla_integration_system.py`'s
`simulate_battle_scenario` raises `ValueError` for every name outside its
three scenario keys, while `integrated_pla_system.py`'s `simulate_battle`
does not raise for a name outside its two keys — it returns the
`{'error': 'Unknown scenario: ...'}` dictionary instead. -/
theorem claim_C4_unknown_scenario_behaviour :
    (∀ (ord : List String → List String) (now name : String),
      name ∉ ["south_china_sea", "taiwan_strait", "indo_pacific"] →
      CompletePLA.simulate_battle_scenario ord now name =
        .error (.valueError ("Unknown scenario: " ++ name))) ∧
    (∀ name : String, name ∉ ["south_china_sea", "taiwan_strait"] →
      IntegratedPLA.simulate_battle name =
        .ok (.errorDict ("Unknown scenario: " ++ name))) := by
  constructor
  · intro ord now name h
    unfold CompletePLA.simulate_battle_scenario
    rw [CompletePLA.battleScenarios_lookup_none name h]
  · exact IntegratedPLA.simulate_battle_unknown

/-- C4 (counterexample): `"indo_pacific"` is outside
`integrated_pla_system.py`'s scenario keys, yet `simulate_battle` returns
the error dictionary normally — it raises no `ValueError`. -/
theorem claim_C4_counterexample :
    IntegratedPLA.simulate_battle "indo_pacific" =
      .ok (.errorDict ("Unknown scenario: " ++ "indo_pacific")) ∧
    ¬ ∃ e, IntegratedPLA.simulate_battle "indo_pacific" = .error e := by
  have h := IntegratedPLA.simulate_battle_unknown "indo_pacific"
    (by decide)
  refine ⟨h, ?_⟩
  rintro ⟨e, he⟩
  rw [h] at he
  exact Except.noConfusion he

/-- C4 witness: at the concrete name `"nonexistent"` the complete system
raises `ValueError` and the integrated system returns the error
dictionary. -/
theorem claim_C4_witness :
    (("nonexistent" : String) ∉
      ["south_china_sea", "taiwan_strait", "indo_pacific"]) ∧
    CompletePLA.simulate_battle_scenario (fun l => l.dedup) "t"
        "nonexistent" =
      .error (.valueError ("Unknown scenario: " ++ "nonexistent")) ∧
    (("nonexistent" : String) ∉ ["south_china_sea", "taiwan_strait"]) ∧
    IntegratedPLA.simulate_battle "nonexistent" =
      .ok (.errorDict ("Unknown scenario: " ++ "nonexistent")) := by
  have h1 : ("nonexistent" : String) ∉
      ["south_china_sea", "taiwan_strait", "indo_pacific"] := by decide
  have h2 : ("nonexistent" : String) ∉
      ["south_china_sea", "taiwan_strait"] := by decide
  exact ⟨h1,
    claim_C4_unknown_scenario_behaviour.1 (fun l => l.dedup) "t"
      "nonexistent" h1,
    h2, claim_C4_unknown_scenario_behaviour.2 "nonexistent" h2⟩

/-- C5: `generate_cad_for_system` returns `None` without raising when the
system name is in none of the three dictionaries; builder exceptions
(raised before the `try` block) propagate uncaught; any exception from
the STEP/STL export step is caught and converted to `None`; and on
success it returns the geometry and records an entry in `cad_models`. -/
theorem claim_C5_generate_cad_error_handling :
    ∀ (G : Type) (env : CompletePLA.CadEnv G)
      (models : List (String × CompletePLA.CadModelEntry G))
      (name dir : String),
      (CompletePLA.systemLookup name = none →
        CompletePLA.generate_cad_for_system env models name dir =
          .ok (none, models)) ∧
      (∀ system e, CompletePLA.systemLookup name = some system →
        CompletePLA.dispatchBuilder env name system = .error e →
        CompletePLA.generate_cad_for_system env models name dir =
          .error e) ∧
      (∀ system geom, CompletePLA.systemLookup name = some system →
        CompletePLA.dispatchBuilder env name system = .ok geom →
        ((∃ e, env.exportSTEP geom
            (dir ++ "/" ++ CompletePLA.pathName name ++ ".step") =
              .error e) ∨
          (env.exportSTEP geom
              (dir ++ "/" ++ CompletePLA.pathName name ++ ".step") =
              .ok () ∧
            ∃ e, env.exportSTL geom
              (dir ++ "/" ++ CompletePLA.pathName name ++ ".stl") =
                .error e)) →
        CompletePLA.generate_cad_for_system env models name dir =
          .ok (none, models)) ∧
      (∀ system geom, CompletePLA.systemLookup name = some system →
        CompletePLA.dispatchBuilder env name system = .ok geom →
        env.exportSTEP geom
          (dir ++ "/" ++ CompletePLA.pathName name ++ ".step") = .ok () →
        env.exportSTL geom
          (dir ++ "/" ++ CompletePLA.pathName name ++ ".stl") = .ok () →
        CompletePLA.generate_cad_for_system env models name dir =
          .ok (some geom,
            Py.dictSet models name
              { geometry := geom
                step_path :=
                  dir ++ "/" ++ CompletePLA.pathName name ++ ".step"
                stl_path :=
                  dir ++ "/" ++ CompletePLA.pathName name ++ ".stl"
                system := system })) := by
  intro G env models name dir
  refine ⟨?_, ?_, ?_, ?_⟩
  · intro h
    unfold CompletePLA.generate_cad_for_system
    rw [h]
  · intro system e hs hd
    unfold CompletePLA.generate_cad_for_system
    simp only [hs, hd]
  · intro system geom hs hd hfail
    unfold CompletePLA.generate_cad_for_system
    rcases hfail with ⟨e, he⟩ | ⟨hok, e, he⟩
    · simp only [hs, hd, he]
    · simp only [hs, hd, hok, he]
  · intro system geom hs hd h1 h2
    unfold CompletePLA.generate_cad_for_system
    simp only [hs, hd, h1, h2]

/-- C5 witness: with concrete sample environments — all-succeeding,
STEP-export-failing, and DF-17-builder-failing — the four behaviours of
`generate_cad_for_system` are exhibited at the concrete names
`"nonexistent"` and `"DF-17"`. -/
theorem claim_C5_witness :
    CompletePLA.generate_cad_for_system CompletePLA.sampleEnvOk []
        "nonexistent" "cad_output" = .ok (none, []) ∧
    (CompletePLA.generate_cad_for_system CompletePLA.sampleEnvOk []
        "DF-17" "cad_output").map Prod.fst = .ok (some 1) ∧
    CompletePLA.generate_cad_for_system CompletePLA.sampleEnvStepFail []
        "DF-17" "cad_output" = .ok (none, []) ∧
    CompletePLA.generate_cad_for_system CompletePLA.sampleEnvBuildFail []
        "DF-17" "cad_output" = .error (.exception "kernel crash") := by
  obtain ⟨spec, hspec⟩ :
      ∃ s, CompletePLA.systemLookup "DF-17" = some s := ⟨_, rfl⟩
  refine ⟨?_, ?_, ?_, ?_⟩
  · exact (claim_C5_generate_cad_error_handling ℕ
      CompletePLA.sampleEnvOk [] "nonexistent" "cad_output").1 rfl
  · rw [(claim_C5_generate_cad_error_handling ℕ
      CompletePLA.sampleEnvOk [] "DF-17" "cad_output").2.2.2 spec 1
      hspec rfl rfl rfl]
    rfl
  · exact (claim_C5_generate_cad_error_handling ℕ
      CompletePLA.sampleEnvStepFail [] "DF-17" "cad_output").2.2.1 spec 1
      hspec rfl (Or.inl ⟨.exception "disk full", rfl⟩)
  · exact (claim_C5_generate_cad_error_handling ℕ
      CompletePLA.sampleEnvBuildFail [] "DF-17" "cad_output").2.1 spec
      (.exception "kernel crash") hspec rfl

namespace Py

/-- `any` over a list is invariant under permutation. -/
theorem perm_any {l1 l2 : List String} (h : List.Perm l1 l2)
    (p : String → Bool) : l1.any p = l2.any p := by
  cases hb : l2.any p
  · rw [List.any_eq_false] at hb ⊢
    intro x hx
    exact hb x (h.mem_iff.mp hx)
  · rw [List.any_eq_true] at hb ⊢
    obtain ⟨x, hx, hp⟩ := hb
    exact ⟨x, h.mem_iff.mpr hx, hp⟩

end Py

namespace CompletePLA

/-- Two valid set-enumeration orders yield `_analyze_pla_forces` results
that agree up to the order of the two set-derived lists. -/
theorem analyzePlaForces_equiv {o1 o2 : List String → List String}
    (h1 : ValidOrd o1) (h2 : ValidOrd o2) (F : List String) :
    PlaAnalysisEquiv (analyzePlaForces o1 F) (analyzePlaForces o2 F) :=
  ⟨rfl, rfl, rfl, rfl, (h1 _).trans (h2 _).symm,
    (h1 _).trans (h2 _).symm⟩

/-- Two valid set-enumeration orders yield `_analyze_adversary_forces`
results that agree up to the order of the two set-derived lists. -/
theorem analyzeAdversaryForces_equiv {o1 o2 : List String → List String}
    (h1 : ValidOrd o1) (h2 : ValidOrd o2) (F : List String) :
    AdvAnalysisEquiv (analyzeAdversaryForces o1 F)
      (analyzeAdversaryForces o2 F) :=
  ⟨rfl, rfl, (h1 _).trans (h2 _).symm, (h1 _).trans (h2 _).symm, rfl⟩

/-- The hypersonic-capability test is order-insensitive. -/
theorem hasHyper_congr {l1 l2 : List String} (h : List.Perm l1 l2) :
    hasHypersonicCap l1 = hasHypersonicCap l2 :=
  Py.perm_any h _

/-- `_calculate_advantages` reads its analyses only through
order-insensitive views, so equivalent analyses give equal advantages. -/
theorem calculateAdvantages_congr {p1 p2 : PlaAnalysis}
    {a1 a2 : AdvAnalysis} (hp : PlaAnalysisEquiv p1 p2)
    (ha : AdvAnalysisEquiv a1 a2) (s : BattleScenario) :
    calculateAdvantages p1 a1 s = calculateAdvantages p2 a2 s := by
  obtain ⟨hts, hst, hrg, hpl, hdl, hcaps⟩ := hp
  obtain ⟨hats, hast, hav, hadl, hart⟩ := ha
  unfold calculateAdvantages
  rw [hasHyper_congr hcaps, hst, hrg, hpl, hast]

/-- `_predict_outcome` reads its analyses only through order-insensitive
views. -/
theorem predictOutcome_congr {p1 p2 : PlaAnalysis} {a1 a2 : AdvAnalysis}
    (hp : PlaAnalysisEquiv p1 p2) (ha : AdvAnalysisEquiv a1 a2)
    (adv : Advantages) (s : BattleScenario) :
    predictOutcome p1 a1 adv s = predictOutcome p2 a2 adv s := by
  obtain ⟨hts, hst, hrg, hpl, hdl, hcaps⟩ := hp
  obtain ⟨hats, hast, hav, hadl, hart⟩ := ha
  unfold predictOutcome
  rw [hts, hst, hats]

/-- `_generate_recommendations` reads the PLA analysis only through
order-insensitive views. -/
theorem generateRecommendations_congr {p1 p2 : PlaAnalysis}
    (hp : PlaAnalysisEquiv p1 p2) (adv : Advantages)
    (s : BattleScenario) :
    generateRecommendations p1 adv s =
      generateRecommendations p2 adv s := by
  obtain ⟨hts, hst, hrg, hpl, hdl, hcaps⟩ := hp
  unfold generateRecommendations
  rw [hasHyper_congr hcaps, hst]

end CompletePLA

/-- C3 (amended): the non-timestamp part of `generate_bom`'s output is a
deterministic function of its inputs; `simulate_battle_scenario`'s output
is deterministic up to the enumeration order of its four set-derived list
fields (which follow Python's hash-dependent set iteration order) — for
any two valid enumeration orders, the outputs agree on every non-timestamp
field, with those four lists agreeing as multisets. -/
theorem claim_C3_report_determinism :
    (∀ (now1 now2 mt : String) (comps : List SimpleCad.MPComponent),
      SimpleCad.stripBomDate (SimpleCad.generateBom now1 mt comps) =
        SimpleCad.stripBomDate (SimpleCad.generateBom now2 mt comps)) ∧
    (∀ (ord1 ord2 : List String → List String)
      (now1 now2 name : String),
      CompletePLA.ValidOrd ord1 → CompletePLA.ValidOrd ord2 →
      CompletePLA.SimEquiv
        (CompletePLA.simulate_battle_scenario ord1 now1 name)
        (CompletePLA.simulate_battle_scenario ord2 now2 name)) := by
  constructor
  · intro now1 now2 mt comps
    rfl
  · intro ord1 ord2 now1 now2 name h1 h2
    unfold CompletePLA.simulate_battle_scenario
    cases hl : CompletePLA.battleScenarios.lookup name with
    | none => exact rfl
    | some scen =>
        show CompletePLA.ResultEquiv _ _
        have hp := CompletePLA.analyzePlaForces_equiv h1 h2
          scen.pla_forces
        have ha := CompletePLA.analyzeAdversaryForces_equiv h1 h2
          scen.adversary_forces
        have hadv := CompletePLA.calculateAdvantages_congr hp ha scen
        exact ⟨rfl, rfl, rfl, hp, ha, hadv,
          (congrArg
            (fun adv => CompletePLA.predictOutcome
              (CompletePLA.analyzePlaForces ord1 scen.pla_forces)
              (CompletePLA.analyzeAdversaryForces ord1
                scen.adversary_forces) adv scen) hadv).trans
            (CompletePLA.predictOutcome_congr hp ha
              (CompletePLA.calculateAdvantages
                (CompletePLA.analyzePlaForces ord2 scen.pla_forces)
                (CompletePLA.analyzeAdversaryForces ord2
                  scen.adversary_forces) scen) scen),
          (congrArg
            (fun adv => CompletePLA.generateRecommendations
              (CompletePLA.analyzePlaForces ord1 scen.pla_forces) adv
              scen) hadv).trans
            (CompletePLA.generateRecommendations_congr hp
              (CompletePLA.calculateAdvantages
                (CompletePLA.analyzePlaForces ord2 scen.pla_forces)
                (CompletePLA.analyzeAdversaryForces ord2
                  scen.adversary_forces) scen) scen),
          rfl, rfl⟩

/-- C3 (counterexample): with identical inputs and identical timestamps,
two valid set-enumeration orders — dedup insertion order and its
reverse — give `simulate_battle_scenario` outputs that differ outside the
timestamp field, so the non-timestamp part of the output is not a
function of the inputs alone. -/
theorem claim_C3_counterexample :
    CompletePLA.ValidOrd (fun l => l.dedup) ∧
    CompletePLA.ValidOrd (fun l => l.dedup.reverse) ∧
    (CompletePLA.simulate_battle_scenario (fun l => l.dedup) "t"
        "south_china_sea").map CompletePLA.stripResultTs ≠
      (CompletePLA.simulate_battle_scenario (fun l => l.dedup.reverse)
        "t" "south_china_sea").map CompletePLA.stripResultTs := by
  refine ⟨fun l => List.Perm.refl _, fun l => (l.dedup).reverse_perm, ?_⟩
  intro h
  exact absurd
    (congrArg
      (fun x : Except Py.PyErr CompletePLA.ScenarioResult =>
        match x with
        | .ok r => some r.analysis.pla_capabilities.data_link_coverage
        | .error _ => none) h)
    (by decide)

/-- C3 witness: the determinism statements instantiated at concrete
timestamps, component lists and the two concrete valid enumeration
orders. -/
theorem claim_C3_witness :
    CompletePLA.ValidOrd (fun l => l.dedup) ∧
    CompletePLA.ValidOrd (fun l => l.dedup.reverse) ∧
    SimpleCad.stripBomDate (SimpleCad.generateBom "t1" "DF-17" []) =
      SimpleCad.stripBomDate (SimpleCad.generateBom "t2" "DF-17" []) ∧
    CompletePLA.SimEquiv
      (CompletePLA.simulate_battle_scenario (fun l => l.dedup) "t1"
        "south_china_sea")
      (CompletePLA.simulate_battle_scenario (fun l => l.dedup.reverse)
        "t2" "south_china_sea") := by
  have v1 : CompletePLA.ValidOrd (fun l => l.dedup) :=
    fun l => List.Perm.refl _
  have v2 : CompletePLA.ValidOrd (fun l => l.dedup.reverse) :=
    fun l => (l.dedup).reverse_perm
  exact ⟨v1, v2, claim_C3_report_determinism.1 "t1" "t2" "DF-17" [],
    claim_C3_report_determinism.2 _ _ "t1" "t2" "south_china_sea" v1 v2⟩
